import Mathlib

/-!
Verification development for the annotated-metadata generator.

The development shallowly embeds the two core passes of the repository —
the normalizer (`optimize`) and the renderer (`generateType` /
`generate`) from `src/generator.ts` — as executable Lean functions over
an inductive tree model of the schema AST, plus a second, identity-aware
graph model (node store + explicit visited set + fuel) used for the
claims about cycle handling and the visited-set guard.

Conventions used throughout:
* machine integers of the source are modelled as `Int`/`Nat`;
* JavaScript truthiness tests on optional strings (`if (x.comment)`)
  are modelled by `truthy`; strict `!== undefined` tests by `Option.isSome`;
* the source mutates nodes in place (`Object.assign`); on trees this is
  observationally a pure rewrite, which is how the tree model renders it,
  while the graph model performs explicit store updates;
* string literals that the generator emits contain braces and single
  quotes; these are written with the escapes `\x7b`, `\x7d` and `\x27`.
-/

/-- The subset of the `Options` bundle (from the missing `src/index.ts`)
that `generator.ts` actually reads. -/
structure Options where
  bannerComment : String := ""
  declareExternallyReferenced : Bool := true
  enableConstEnums : Bool := false
  strictIndexSignatures : Bool := false
  unknownAny : Bool := true
deriving DecidableEq

/-- The optional fields shared by every AST node variant
(`standaloneName`, `comment`, `deprecated`, `keyName`). -/
structure Fields where
  standaloneName : Option String := none
  comment : Option String := none
  deprecated : Bool := false
  keyName : Option String := none
deriving DecidableEq

/-- The AST node model, one constructor per `type` tag of the source AST.
Interface members are `(keyName, ast, isRequired, isPatternProperty,
isUnreachableDefinition)` tuples; enum members are `(keyName, ast)` pairs.
`literalNode` carries the literal's (string) value, `referenceNode` and
`customNode` their raw text payload. -/
inductive AST where
  | anyNode (f : Fields)
  | unknownNode (f : Fields)
  | neverNode (f : Fields)
  | nullNode (f : Fields)
  | booleanNode (f : Fields)
  | numberNode (f : Fields)
  | objectNode (f : Fields)
  | stringNode (f : Fields)
  | literalNode (f : Fields) (value : String)
  | referenceNode (f : Fields) (name : String)
  | customNode (f : Fields) (params : String)
  | arrayNode (f : Fields) (param : AST)
  | tupleNode (f : Fields) (params : List AST) (minItems : Int) (maxItems : Int)
      (spreadParam : Option AST)
  | unionNode (f : Fields) (params : List AST)
  | intersectionNode (f : Fields) (params : List AST)
  | interfaceNode (f : Fields) (params : List (String × AST × Bool × Bool × Bool))
      (superTypes : List AST)
  | enumNode (f : Fields) (params : List (String × AST))

/-- An interface member: keyName, node, isRequired, isPatternProperty,
isUnreachableDefinition. -/
abbrev InterfaceMember := String × AST × Bool × Bool × Bool

/-- The common optional fields of a node. -/
def AST.fields : AST → Fields
  | .anyNode f => f
  | .unknownNode f => f
  | .neverNode f => f
  | .nullNode f => f
  | .booleanNode f => f
  | .numberNode f => f
  | .objectNode f => f
  | .stringNode f => f
  | .literalNode f _ => f
  | .referenceNode f _ => f
  | .customNode f _ => f
  | .arrayNode f _ => f
  | .tupleNode f _ _ _ _ => f
  | .unionNode f _ => f
  | .intersectionNode f _ => f
  | .interfaceNode f _ _ => f
  | .enumNode f _ => f

def AST.standaloneName (t : AST) : Option String := t.fields.standaloneName

def AST.comment (t : AST) : Option String := t.fields.comment

def AST.deprecated (t : AST) : Bool := t.fields.deprecated

def AST.keyName (t : AST) : Option String := t.fields.keyName

/-- The `type` tag string of a node, exactly as compared by the source
(`ast.type === 'NULL'` and so on). -/
def AST.typeName : AST → String
  | .anyNode _ => "ANY"
  | .unknownNode _ => "UNKNOWN"
  | .neverNode _ => "NEVER"
  | .nullNode _ => "NULL"
  | .booleanNode _ => "BOOLEAN"
  | .numberNode _ => "NUMBER"
  | .objectNode _ => "OBJECT"
  | .stringNode _ => "STRING"
  | .literalNode _ _ => "LITERAL"
  | .referenceNode _ _ => "REFERENCE"
  | .customNode _ _ => "CUSTOM_TYPE"
  | .arrayNode _ _ => "ARRAY"
  | .tupleNode _ _ _ _ _ => "TUPLE"
  | .unionNode _ _ => "UNION"
  | .intersectionNode _ _ => "INTERSECTION"
  | .interfaceNode _ _ _ => "INTERFACE"
  | .enumNode _ _ => "ENUM"

/-- JavaScript truthiness of an optional string (absent and `""` are falsy). -/
def truthy : Option String → Bool
  | some s => s != ""
  | none => false

/-- Modelled from the spec: `hasStandaloneName` from the missing
`src/types/AST.ts` module — whether the node carries a standalone name. -/
def hasStandaloneName (t : AST) : Bool := t.standaloneName.isSome

/-- Modelled from the spec: `hasComment` from the missing
`src/types/AST.ts` module — whether the node carries a (nonempty) comment. -/
def hasComment (t : AST) : Bool := truthy t.comment

/-- Modelled from the spec: the shared `T_ANY` constant node of the
missing `src/types/AST.ts` module. -/
def T_ANY : AST := .anyNode {}

/-- Modelled from the spec: the shared `T_UNKNOWN` constant node of the
missing `src/types/AST.ts` module. -/
def T_UNKNOWN : AST := .unknownNode {}

/-- Modelled from the spec: the shared `T_STRING` constant node of the
missing `src/types/AST.ts` module. -/
def T_STRING : AST := .stringNode {}

/-- Modelled from the spec: the `T_INTERFACE(params, comment)` helper of
the missing `src/types/AST.ts` module — a fresh anonymous interface node
with the given members, comment and no supertypes (used by the
union-of-interfaces merge). -/
def T_INTERFACE (params : List InterfaceMember) (comment : Option String) : AST :=
  .interfaceNode { comment := comment } params []

/-- Modelled from the spec: `toSafeString` from the missing
`src/utils.ts` module sanitizes a name into a safe identifier; on names
that already are safe identifiers (the only ones appearing in this
development) it returns the name unchanged, so it is modelled as the
identity. -/
def toSafeString (s : String) : String := s

/-- One hexadecimal digit (lower case), for `jsonStringify`. -/
def hexDigitChar (n : Nat) : Char :=
  if n < 10 then Char.ofNat (48 + n) else Char.ofNat (87 + n)

/-- `JSON.stringify` escaping of one character of a string literal. -/
def jsonEscapeChar (c : Char) : String :=
  if c = '"' then "\\\""
  else if c = '\\' then "\\\\"
  else if c = '\n' then "\\n"
  else if c = '\r' then "\\r"
  else if c = '\t' then "\\t"
  else if c = '\x08' then "\\b"
  else if c = '\x0c' then "\\f"
  else if c.toNat < 32 then
    "\\u00" ++ String.mk [hexDigitChar (c.toNat / 16), hexDigitChar (c.toNat % 16)]
  else String.mk [c]

/-- `JSON.stringify` of a string value. -/
def jsonStringify (s : String) : String :=
  "\"" ++ String.join (s.data.map jsonEscapeChar) ++ "\""

/-- The regex class `[A-Za-z_$]` of `escapeKeyName`. -/
def isIdentStartChar (c : Char) : Bool :=
  ('A' ≤ c && c ≤ 'Z') || ('a' ≤ c && c ≤ 'z') || c = '_' || c = '$'

/-- The regex class `[\w$]` of `escapeKeyName`. -/
def isWordChar (c : Char) : Bool :=
  isIdentStartChar c || ('0' ≤ c && c ≤ '9')

/-- `escapeKeyName` of the source: identifiers and the index-signature
placeholder pass through, anything else is JSON-quoted (the character
tests walk the string's character list directly). -/
def escapeKeyName (keyName : String) : String :=
  if keyName.length > 0 && isIdentStartChar (keyName.data.headD ' ')
      && keyName.data.all isWordChar then
    keyName
  else if keyName = "[k: string]" then keyName
  else jsonStringify keyName

/-- `comment.split('\n')`, by direct recursion over the characters. -/
def splitLinesAux : List Char → List Char → List String
  | [], acc => [String.mk acc.reverse]
  | c :: rest, acc =>
      if c = '\n' then String.mk acc.reverse :: splitLinesAux rest []
      else splitLinesAux rest (c :: acc)

/-- `comment.split('\n')` of `generateComment`. -/
def splitLines (s : String) : List String := splitLinesAux s.data []

/-- `generateComment` of the source. -/
def generateComment (comment : Option String) (deprecated : Bool) : String :=
  String.intercalate "\n"
    (["/**"]
      ++ (if deprecated then [" * @deprecated"] else [])
      ++ (match comment with
          | some c => (splitLines c).map (fun l => " * " ++ l)
          | none => [])
      ++ [" */"])

/-- `isAnnotatedString` of the source: the type tags projected through the
string-scalar wrapper. -/
def isAnnotatedString (key : String) : Bool :=
  key == "STRING" || key == "ENUM" || key == "LITERAL" || key == "NUMBER" || key == "UNKNOWN"

/-- The accessor-kind argument of `generateEndNodes`
(`'BASIC' | 'ARRAY' | 'MAP'`). -/
inductive MapEntryKind where
  | basic
  | array
  | map
deriving DecidableEq

/-- `getMapEntryPrefix` of the source (renamed here): the runtime-support
helper selected by the accessor kind. -/
def getMapEntryFnName : Option MapEntryKind → String
  | some .basic => "getMapEntry"
  | some .array => "getMapEntrySequence"
  | some .map => "getMapEntryMap"
  | none => ""

/-- `generateEndNodes` of the source: renders one member accessor (or a
plain field) from already-computed pieces. `paramType` is a `type` tag. -/
def generateEndNodes (keyName : String) (type : String) (paramType : String)
    (isRequired : Bool) (standaloneName : Option String) (comment : Option String)
    (deprecated : Bool) (mapEntryKind : Option MapEntryKind) : String :=
  let mapEntryFn := getMapEntryFnName mapEntryKind
  let commentString := if truthy comment then generateComment comment deprecated ++ "\n" else ""
  let accessor := fun (ctor : String) =>
    commentString ++ "get " ++ escapeKeyName keyName
      ++ "() \x7b\n return " ++ mapEntryFn ++ "(this.node, \x27"
      ++ escapeKeyName keyName ++ "\x27, this.uri, " ++ ctor ++ ")" ++ "\n\x7d"
  if truthy standaloneName then accessor (standaloneName.getD "")
  else if isAnnotatedString paramType then accessor "AnnotatedString"
  else if paramType == "BOOLEAN" then accessor "AnnotatedBoolean"
  else commentString ++ escapeKeyName keyName ++ (if isRequired then "" else "?") ++ ": " ++ type

/-- The element node of an `ARRAY` node (`ast.params`); callers in the
source only read it after checking the `ARRAY` type tag, so the default
is never observable. -/
def AST.arrayParam : AST → AST
  | .arrayNode _ p => p
  | _ => T_ANY

/-- The parameter list of a `UNION`/`INTERSECTION` node (`ast.params`). -/
def AST.setParams : AST → List AST
  | .unionNode _ ps => ps
  | .intersectionNode _ ps => ps
  | _ => []

/-- The member list of an `INTERFACE` node (`ast.params`). -/
def AST.interfaceParams : AST → List InterfaceMember
  | .interfaceNode _ ms _ => ms
  | _ => []

/-- Placeholder member for (unreachable) head lookups on empty lists. -/
def dummyMember : InterfaceMember := ("", T_ANY, false, false, false)

/-- `handleUnionRecursively` of the source: classifies the single
parameter of a one-parameter union/intersection member and renders the
matching accessor. Called only with `ast.params.length === 1`; on an
empty parameter list the source would fault, modelled as `""`. -/
def handleUnionRecursively (ast : AST) (keyName : String) (type : String)
    (isRequired : Bool) : String :=
  match (AST.setParams ast).head? with
  | none => ""
  | some p0 =>
    if p0.typeName == "ARRAY" then
      let sn0 := p0.standaloneName
      let standaloneName := if truthy sn0 then sn0 else (AST.arrayParam p0).standaloneName
      generateEndNodes keyName type (AST.arrayParam p0).typeName isRequired standaloneName
        ast.comment ast.deprecated (some .array)
    else if p0.typeName == "INTERFACE" && !truthy p0.standaloneName
        && (AST.interfaceParams p0).length == 1
        && escapeKeyName ((AST.interfaceParams p0).headD dummyMember).1 == "[k: string]" then
      let inner := ((AST.interfaceParams p0).headD dummyMember).2.1
      generateEndNodes keyName type inner.typeName isRequired inner.standaloneName
        ast.comment ast.deprecated (some .map)
    else
      let sn0 := ast.standaloneName
      let standaloneName := if truthy sn0 then sn0 else p0.standaloneName
      generateEndNodes keyName type p0.typeName isRequired standaloneName
        ast.comment ast.deprecated (some .basic)

/-- The member classification of `generateInterface` (the big branch chain
of its second `.map`); `type` is the member node's already-rendered text,
exactly as the source precomputes it in its first `.map`. -/
def generateInterfaceMember (keyName : String) (mast : AST) (isRequired : Bool)
    (type : String) (allKeys : List String) (_options : Options) : String :=
  let commentString := if hasComment mast then generateComment mast.comment mast.deprecated ++ "\n" else ""
  let accessor := fun (ctor : String) =>
    commentString ++ "get " ++ escapeKeyName keyName
      ++ "() \x7b\n return getMapEntry(this.node, \x27" ++ escapeKeyName keyName
      ++ "\x27, this.uri, " ++ ctor ++ ")" ++ "\n\x7d"
  let plainField :=
    (if hasComment mast && !truthy mast.standaloneName then
        generateComment mast.comment mast.deprecated ++ "\n"
      else "")
      ++ escapeKeyName keyName ++ (if isRequired then "" else "?") ++ ": " ++ type
  if isAnnotatedString mast.typeName && escapeKeyName keyName != "[k: string]" then
    accessor "AnnotatedString"
  else if mast.typeName == "BOOLEAN" && escapeKeyName keyName != "[k: string]" then
    accessor "AnnotatedBoolean"
  else if mast.typeName == "INTERFACE" && truthy mast.standaloneName
      && escapeKeyName keyName != "[k: string]" then
    accessor (mast.standaloneName.getD "")
  else if mast.typeName == "ARRAY" && escapeKeyName keyName != "[k: string]" then
    generateEndNodes keyName type (AST.arrayParam mast).typeName isRequired
      (AST.arrayParam mast).standaloneName mast.comment mast.deprecated (some .array)
  else if (mast.typeName == "UNION" || mast.typeName == "INTERSECTION")
      && escapeKeyName keyName != "[k: string]" && (AST.setParams mast).length == 1 then
    handleUnionRecursively mast keyName type isRequired
  else if mast.typeName == "INTERFACE" && !truthy mast.standaloneName
      && (AST.interfaceParams mast).length == 1
      && escapeKeyName ((AST.interfaceParams mast).headD dummyMember).1 == "[k: string]" then
    let inner := ((AST.interfaceParams mast).headD dummyMember).2.1
    generateEndNodes keyName type inner.typeName isRequired inner.standaloneName
      mast.comment mast.deprecated (some .map)
  else if allKeys.length > 0 then
    if escapeKeyName keyName != "[k: string]" then plainField
    else ""
  else plainField

/-- The key-name list `allKeys` computed at the top of `generateInterface`
(visible members whose escaped key is not the index signature). -/
def interfaceAllKeys (params : List InterfaceMember) : List String :=
  ((params.filter (fun m => !m.2.2.2.1 && !m.2.2.2.2)).filter
      (fun m => escapeKeyName m.1 != "[k: string]")).map (fun m => escapeKeyName m.1)

/-- The final string assembly of `generateInterface`: braces, the joined
member lines and the synthetic `__keys` accessor. -/
def assembleInterface (memberStrings : List String) (allKeys : List String) : String :=
  "\x7b" ++ "\n" ++ String.intercalate "\n" memberStrings
    ++ (if allKeys.length > 0 then
          "\n get __keys() \x7b\n return ["
            ++ String.intercalate "," (allKeys.map (fun k => "\x27" ++ k ++ "\x27"))
            ++ "] \x7d\n"
        else "")
    ++ "\n\x7d"

/-- `paramsToString` of the tuple rendering. -/
def paramsToString (params : List String) : String :=
  "[" ++ String.intercalate ", " params ++ "]"

/-- `addSpreadParam` of the tuple rendering, over already-rendered texts. -/
def addSpreadParam (params : List String) : Option String → List String
  | some s => params ++ [s]
  | none => params

/-- The shape-emission step of the `TUPLE` case: one fixed-length tuple
shape when the (padded) parameter count does not exceed `minItems`,
otherwise a `|`-joined union of incrementally longer shapes, with the
spread suffix only on the longest one. -/
def tupleShapesText (paramsList : List String) (minItems : Int)
    (spreadText : Option String) : String :=
  if (paramsList.length : Int) > minItems then
    -- union of fixed-length tuple shapes
    let cumulative := paramsList.take minItems.toNat
    let first := if cumulative.length > 0 then paramsToString cumulative else paramsToString []
    let tailLen := paramsList.length - minItems.toNat
    let shapes := (List.range tailLen).map (fun k =>
      let cur := paramsList.take (minItems.toNat + k + 1)
      -- only the last item in the union gets the spread parameter
      if k == tailLen - 1 then paramsToString (addSpreadParam cur spreadText)
      else paramsToString cur)
    String.intercalate "|" (first :: shapes)
  else paramsToString (addSpreadParam paramsList spreadText)

/-- The `TUPLE` case of `generateRawType`, over the already-rendered
parameter texts (`renderedSpread` is the rendered original spread
parameter). The source pads the parameter list with the `T_UNKNOWN` /
`T_ANY` constants and renders them; their rendering is the fixed text
`"unknown"` / `"any"`, inlined here. -/
def tupleTextFromParts (rendered : List String) (suppliedLen : Nat)
    (minItems maxItems0 : Int) (renderedSpread : Option String)
    (options : Options) : String :=
  -- `const maxItems = ast.maxItems || -1` (0 is falsy)
  let maxItems : Int := if maxItems0 == 0 then -1 else maxItems0
  let spreadText : Option String :=
    match renderedSpread with
    | some s => some ("...(" ++ s ++ ")[]")
    | none =>
        -- no max items and no spread param, so just spread any
        if minItems > 0 && minItems > (suppliedLen : Int) && maxItems < 0 then
          some ("...(" ++ (if options.unknownAny then "unknown" else "any") ++ ")[]")
        else none
  -- fill the tuple with any elements up to maxItems
  let paramsList :=
    rendered ++
      (if maxItems > (suppliedLen : Int) && renderedSpread.isNone then
          List.replicate (maxItems - (suppliedLen : Int)).toNat
            (if options.unknownAny then "unknown" else "any")
        else [])
  tupleShapesText paramsList minItems spreadText

/-- The joining step of `generateSetOperation`, over already-rendered
member texts. -/
def setOperationText (isUnion : Bool) (members : List String) : String :=
  let separator := if isUnion then "|" else "&"
  if members.length == 1 then members.headD ""
  else "(" ++ String.intercalate (" " ++ separator ++ " ") members ++ ")"

mutual

/-- `generateType` of the source. The source defines
`generateType = memoize(generateTypeUnmemoized)`; within one run the memo
cache is keyed by node identity and only ever returns what
`generateTypeUnmemoized` first produced for that node, so on a tree the
function is pure and is modelled as such (the cross-run staleness of that
cache is modelled separately by `generateTypeMemoized`). The body inlines
`generateTypeUnmemoized` (the trailing `strictIndexSignatures` wrapper)
and `generateRawType` (the standalone-name short-circuit and the tag
switch); the `INTERFACE`, set-operation and `TUPLE` cases delegate to the
helpers above after rendering the sub-nodes, exactly as the source's
`.map(... generateType ...)` chains do. The source switch has no `ENUM`
case (an unnamed enum renders `undefined`), modelled as `""`. -/
def generateType (ast : AST) (options : Options) : String :=
  let type :=
    if hasStandaloneName ast then toSafeString (ast.standaloneName.getD "")
    else
      match ast with
      | .anyNode _ => "any"
      | .arrayNode _ p =>
          let t := generateType p options
          -- `type.endsWith('"')`
          if t.data.getLast? == some '"' then "(" ++ t ++ ")[]" else t ++ "[]"
      | .booleanNode _ => "boolean"
      | .interfaceNode _ ms _ =>
          -- `generateInterface` (see the standalone definition below)
          assembleInterface (generateInterfaceMembers ms (interfaceAllKeys ms) options)
            (interfaceAllKeys ms)
      | .intersectionNode _ ps => setOperationText false (generateTypeList ps options)
      | .literalNode _ v => jsonStringify v
      | .neverNode _ => "never"
      | .numberNode _ => "number"
      | .nullNode _ => "null"
      | .objectNode _ => "object"
      | .referenceNode _ n => n
      | .stringNode _ => "string"
      | .tupleNode _ ps mi ma sp =>
          tupleTextFromParts (generateTypeList ps options) ps.length mi ma
            (match sp with
             | some s => some (generateType s options)
             | none => none) options
      | .unionNode _ ps => setOperationText true (generateTypeList ps options)
      | .unknownNode _ => "unknown"
      | .customNode _ txt => txt
      | .enumNode _ _ => ""
  if options.strictIndexSignatures && ast.keyName == some "[k: string]" then
    type ++ " | undefined"
  else type

/-- Pointwise rendering of a node list (the source's
`params.map(_ => generateType(_, options))`). -/
def generateTypeList (ts : List AST) (options : Options) : List String :=
  match ts with
  | [] => []
  | t :: rest => generateType t options :: generateTypeList rest options

/-- The member walk of `generateInterface`: visible (non-pattern,
non-unreachable) members are rendered through the classification, with
the member's node text precomputed as in the source's first `.map`. -/
def generateInterfaceMembers (params : List InterfaceMember) (allKeys : List String)
    (options : Options) : List String :=
  match params with
  | [] => []
  | (keyName, mast, isRequired, pp, ud) :: rest =>
      if pp || ud then generateInterfaceMembers rest allKeys options
      else
        generateInterfaceMember keyName mast isRequired (generateType mast options)
            allKeys options
          :: generateInterfaceMembers rest allKeys options

end

/-- `generateInterface` of the source, assembled from the member walk. -/
def generateInterface (params : List InterfaceMember) (options : Options) : String :=
  assembleInterface (generateInterfaceMembers params (interfaceAllKeys params) options)
    (interfaceAllKeys params)

/-- `generateSetOperation` of the source. -/
def generateSetOperation (isUnion : Bool) (params : List AST) (options : Options) : String :=
  setOperationText isUnion (generateTypeList params options)

/-- `generateTypeUnmemoized` of the source: the pure, uncached renderer.
On a tree it coincides with `generateType` above (which models one
fresh-cache rendering); the memoized wrapper with its persistent cache is
`generateTypeMemoized` below. -/
def generateTypeUnmemoized (ast : AST) (options : Options) : String :=
  generateType ast options

/-- Rebuild a node with updated common fields (spread-update of the
source's object literals). -/
def AST.mapFields (g : Fields → Fields) : AST → AST
  | .anyNode f => .anyNode (g f)
  | .unknownNode f => .unknownNode (g f)
  | .neverNode f => .neverNode (g f)
  | .nullNode f => .nullNode (g f)
  | .booleanNode f => .booleanNode (g f)
  | .numberNode f => .numberNode (g f)
  | .objectNode f => .objectNode (g f)
  | .stringNode f => .stringNode (g f)
  | .literalNode f v => .literalNode (g f) v
  | .referenceNode f n => .referenceNode (g f) n
  | .customNode f p => .customNode (g f) p
  | .arrayNode f p => .arrayNode (g f) p
  | .tupleNode f ps mi ma sp => .tupleNode (g f) ps mi ma sp
  | .unionNode f ps => .unionNode (g f) ps
  | .intersectionNode f ps => .intersectionNode (g f) ps
  | .interfaceNode f ms sts => .interfaceNode (g f) ms sts
  | .enumNode f ms => .enumNode (g f) ms

/-- `omitStandaloneName` of the optimizer source: strip the standalone
name, except on `ENUM` nodes. -/
def omitStandaloneName (ast : AST) : AST :=
  match ast with
  | .enumNode _ _ => ast
  | _ => AST.mapFields (fun f => { f with standaloneName := none }) ast

/-- lodash `uniqBy`, with the keys already seen accumulated: keep, in
order, the first element for each distinct key. -/
def uniqByKeyAux : List AST → (AST → String) → List String → List AST
  | [], _, _ => []
  | p :: rest, key, seen =>
      if seen.contains (key p) then uniqByKeyAux rest key seen
      else p :: uniqByKeyAux rest key (seen ++ [key p])

/-- lodash `uniqBy`: keep, in order, the first element for each distinct
key. -/
def uniqByKey (l : List AST) (key : AST → String) : List AST :=
  uniqByKeyAux l key []

/-- The member accumulation of the union-of-interfaces merge: all
parameters' members in order, keeping only the first occurrence of each
key name. -/
def mergeInterfaceMembers (ps : List AST) : List InterfaceMember :=
  ps.foldl
    (fun acc p =>
      match p with
      | .interfaceNode _ ms _ =>
          ms.foldl (fun acc m => if acc.any (fun a => a.1 == m.1) then acc else acc ++ [m]) acc
      | _ => acc)
    []

/-- The "named `String` → anonymous (possibly commented) `String`"
flattening applied by the `ARRAY` and `INTERFACE` branches of
`optimize`. -/
def flattenNamedString (t : AST) : AST :=
  if truthy t.standaloneName && t.typeName == "STRING" then
    if truthy t.comment then .stringNode { comment := t.comment } else T_STRING
  else t

/-- Rule (a) of the set-operation branch: drop `NULL` parameters. -/
def dropNullParams (ps : List AST) : List AST :=
  if ps.any (fun p => p.typeName == "NULL") then ps.filter (fun p => p.typeName != "NULL")
  else ps

/-- Rules (e) and (f) of the set-operation branch: if some parameter is
named and every parameter's name-stripped rendering equals the first
parameter's, keep only the named parameters; then deduplicate by rendered
text (lodash `uniqBy`, first occurrence wins). -/
def dedupSetParams (ps1 : List AST) (options : Options) : List AST :=
  -- [A (named), A] -> [A (named)]
  let ps2 :=
    if ps1.all (fun p =>
          generateType (omitStandaloneName p) options
            == generateType (omitStandaloneName (ps1.headD T_ANY)) options)
        && ps1.any (fun p => p.standaloneName.isSome) then
      ps1.filter (fun p => p.standaloneName.isSome)
    else ps1
  -- [A, B, B] -> [A, B]
  uniqByKey ps2 (fun p => generateType p options)

/-- The `INTERSECTION`/`UNION` branch of `optimize`, applied to the
node's fields and its already-optimized parameter list (the source first
overwrites `ast.params` with the optimized parameters, then applies these
rules in order). The branch's final
`params.map(_ => optimize(_, options, processed))` is the identity on a
tree: each surviving parameter either is the already-visited child object
itself, which the visited-set guard returns unchanged, or is one of the
fixed-point outputs `T_STRING` (possibly commented) / `T_ANY` /
`T_UNKNOWN`, on which `optimize` is the identity; it is therefore
modelled as the identity, preserving the observable behavior. -/
def optimizeSetOperation (isUnion : Bool) (f : Fields) (ps : List AST)
    (options : Options) : AST :=
  let rebuild := fun (qs : List AST) =>
    if isUnion then AST.unionNode f qs else AST.intersectionNode f qs
  -- [A, B, C, null] -> [A, B, C]
  let ps1 := dropNullParams ps
  -- [A, B, C, Any] -> Any
  if ps1.any (fun p => p.typeName == "ANY") then T_ANY
  -- [A, B, C, Unknown] -> Unknown
  else if ps1.any (fun p => p.typeName == "UNKNOWN") then T_UNKNOWN
  -- [union of string literals] -> string
  else if ps1.all (fun p =>
      p.typeName == "LITERAL" || p.typeName == "STRING" || p.typeName == "NULL") then
    if truthy f.comment then .stringNode { comment := f.comment } else T_STRING
  else
    let ps3 := dedupSetParams ps1 options
    -- [union of interfaces] -> combine all unique keys into a single interface
    if ps3.length > 1 && ps3.all (fun p => p.typeName == "INTERFACE") then
      rebuild [T_INTERFACE (mergeInterfaceMembers ps3) f.comment]
    else rebuild ps3

mutual

/-- `optimize` of the source optimizer, on trees. The source threads an
identity-keyed `processed` set through the recursion and returns any
re-entered node unchanged; on a tree no node object is reachable through
two distinct parent positions, so the only guard hits are the
`INTERFACE` branch's trailing self-call `optimize(ast, options,
processed)` (a no-op, modelled as the identity here) and the set-operation
branch's final re-optimization (see `optimizeSetOperation`). The
identity-faithful graph model below keeps both calls literally. -/
def optimize (ast : AST) (options : Options) : AST :=
  match ast with
  | .literalNode f _ =>
      if truthy f.comment then .stringNode { comment := f.comment } else T_STRING
  | .arrayNode f p => .arrayNode f (flattenNamedString (optimize p options))
  | .tupleNode f ps mi ma sp => .tupleNode f (optimizeList ps options) mi ma sp
  | .interfaceNode f ms sts => .interfaceNode f (optimizeMembers ms options) sts
  | .unionNode f ps => optimizeSetOperation true f (optimizeList ps options) options
  | .intersectionNode f ps => optimizeSetOperation false f (optimizeList ps options) options
  | _ => ast

/-- Pointwise optimization of a parameter list. -/
def optimizeList (ts : List AST) (options : Options) : List AST :=
  match ts with
  | [] => []
  | t :: rest => optimize t options :: optimizeList rest options

/-- The `INTERFACE` branch's member rewrite: optimize each member's node,
then flatten named `String` members (the source's two consecutive
`params.map` passes, composed). -/
def optimizeMembers (ms : List InterfaceMember) (options : Options) : List InterfaceMember :=
  match ms with
  | [] => []
  | (k, a, r, pp, ud) :: rest =>
      (k, flattenNamedString (optimize a options), r, pp, ud) :: optimizeMembers rest options

end
/-- The fixed runtime-support text (the `prefix` template literal of
`generate`), verbatim; braces and single quotes are written with
character escapes. -/
def runtimeSupportText : String :=
  "import \x7b DocumentUri \x7d from \x27vscode-languageserver\x27;\n" ++
  "  import \x7b Node, Pair, isMap, isScalar, isSeq \x7d from \x27yaml\x27;\n  \n" ++
  "  export class Annotated \x7b\n    node: Node;\n    uri: DocumentUri;\n  \n" ++
  "    constructor(node: Node, uri: DocumentUri) \x7b\n      this.node = node;\n" ++
  "      this.uri = uri;\n    \x7d\n  \x7d\n  \n" ++
  "  export class AnnotatedString extends Annotated \x7b\n    get value() \x7b\n" ++
  "      if (isScalar(this.node) && typeof this.node.value === \x27string\x27) \x7b\n" ++
  "        return this.node.value;\n      \x7d\n    \x7d\n  \x7d\n  \n" ++
  "  export class AnnotatedBoolean extends Annotated \x7b\n    get value() \x7b\n" ++
  "      if (isScalar(this.node) && typeof this.node.value === \x27boolean\x27) \x7b\n" ++
  "        return this.node.value;\n      \x7d\n    \x7d\n  \x7d\n  \n" ++
  "  // Represent the SecretValue schema of OpenDDS\n" ++
  "  // https://github.com/hasura/open-data-domain-specification/blob/main/jsonschema/metadata_object.jsonschema#L643\n" ++
  "  export class AnnotatedSecretValue extends Annotated \x7b\n    get value() \x7b\n" ++
  "      return getMapEntry(this.node, \x27value\x27, this.uri, AnnotatedString);\n    \x7d\n" ++
  "    get stringValueFromSecret() \x7b\n" ++
  "      return getMapEntry(this.node, \x27stringValueFromSecret\x27, this.uri, AnnotatedString);\n" ++
  "    \x7d\n  \x7d\n  \n  export class Any extends Annotated \x7b\n" ++
  "    get(key: string) \x7b\n      return getMapEntry(this.node, key, this.uri, Any);\n" ++
  "    \x7d\n  \x7d\n  \n  export class Map<V extends Annotated> extends Annotated \x7b\n" ++
  "    private ctor: AnnotatedConstructor<V>;\n" ++
  "    constructor(node: Node, uri: DocumentUri, ctor: AnnotatedConstructor<V>) \x7b\n" ++
  "      super(node, uri);\n      this.ctor = ctor;\n    \x7d\n" ++
  "    keys(): AnnotatedString[] \x7b\n      if (isMap(this.node)) \x7b\n" ++
  "        return this.node.items.map((pair) => \x7b\n" ++
  "          return new AnnotatedString(pair.key as Node, this.uri);\n        \x7d);\n" ++
  "      \x7d\n      return [];\n    \x7d\n    values(): V[] \x7b\n" ++
  "      if (isMap(this.node)) \x7b\n        return this.node.items.map((pair) => \x7b\n" ++
  "          return new this.ctor(pair.value as Node, this.uri) as V;\n        \x7d);\n" ++
  "      \x7d\n      return [];\n    \x7d\n    entries(): [AnnotatedString, V][] \x7b\n" ++
  "      if (isMap(this.node)) \x7b\n        return this.node.items.map((pair) => \x7b\n" ++
  "          return [new AnnotatedString(pair.key as Node, this.uri), new this.ctor(pair.value as Node, this.uri) as V];\n" ++
  "        \x7d);\n      \x7d\n      return [];\n    \x7d\n" ++
  "    get(key: string): V | undefined \x7b\n      if (isMap(this.node)) \x7b\n" ++
  "        const node = this.node.items.find((pair) => ((pair.key as AnnotatedString).value as string) === key)?.value;\n" ++
  "        return node ? (new this.ctor(node as Node, this.uri) as V) : undefined;\n" ++
  "      \x7d\n      return undefined;\n    \x7d\n  \x7d\n  \n" ++
  "  export class MapEntry<T extends Annotated> \x7b\n    keyNode: Node;\n    value: T;\n" ++
  "    uri: DocumentUri;\n  \n    get key() \x7b\n" ++
  "      return new AnnotatedString(this.keyNode, this.uri).value;\n    \x7d\n  \n" ++
  "    constructor(keyNode: Node, value: T, uri: DocumentUri) \x7b\n" ++
  "      this.keyNode = keyNode;\n      this.value = value;\n      this.uri = uri;\n" ++
  "    \x7d\n  \x7d\n  \n" ++
  "  export class Sequence<T extends Annotated> extends Annotated \x7b\n" ++
  "    private ctor: AnnotatedConstructor<T>;\n" ++
  "    constructor(node: Node, uri: DocumentUri, ctor: AnnotatedConstructor<T>) \x7b\n" ++
  "      super(node, uri);\n      this.ctor = ctor;\n    \x7d\n    items() \x7b\n" ++
  "      if (isSeq(this.node)) \x7b\n" ++
  "        return this.node.items.map((item) => new this.ctor(item as Node, this.uri));\n" ++
  "      \x7d\n    \x7d\n  \n" ++
  "    // eslint-disable-next-line @typescript-eslint/class-methods-use-this\n" ++
  "    get() \x7b\n      return undefined;\n    \x7d\n  \x7d\n  \n" ++
  "  interface AnnotatedConstructor<T extends Annotated> \x7b\n" ++
  "    new (node: Node, uri: DocumentUri): T;\n  \x7d\n  \n" ++
  "  function getMapEntry<T extends Annotated>(node: Node, key: string, uri: DocumentUri, ctor: AnnotatedConstructor<T>) \x7b\n" ++
  "    return getMapEntryWith(node, key, uri, (pair) => new ctor(pair.value as Node, uri));\n" ++
  "  \x7d\n  \n" ++
  "  function getMapEntrySequence<T extends Annotated>(node: Node, key: string, uri: DocumentUri, ctor: AnnotatedConstructor<T>) \x7b\n" ++
  "    return getMapEntryWith<Sequence<T>>(node, key, uri, (pair) => new Sequence<T>(pair.value as Node, uri, ctor));\n" ++
  "  \x7d\n  \n" ++
  "  function getMapEntryMap<T extends Annotated>(node: Node, key: string, uri: DocumentUri, ctor: AnnotatedConstructor<T>) \x7b\n" ++
  "    return getMapEntryWith<Map<T>>(node, key, uri, (pair) => new Map<T>(pair.value as Node, uri, ctor));\n" ++
  "  \x7d\n  \n  function getMapEntryWith<T extends Annotated>(\n    node: Node,\n" ++
  "    key: string,\n    uri: DocumentUri,\n    fn: (pair: Pair<unknown, unknown>) => T\n" ++
  "  ) \x7b\n    if (isMap(node)) \x7b\n      for (const pair of node.items) \x7b\n" ++
  "        if (isScalar(pair.key) && pair.key.value == key) \x7b\n" ++
  "          return new MapEntry<T>(pair.key, fn(pair), uri);\n        \x7d\n      \x7d\n" ++
  "    \x7d\n  \x7d"

/-- `generateStandaloneEnum` of the source. -/
def generateStandaloneEnum (f : Fields) (params : List (String × AST))
    (options : Options) : String :=
  (if truthy f.comment then generateComment f.comment f.deprecated ++ "\n" else "")
    ++ "export " ++ (if options.enableConstEnums then "const " else "")
    ++ "enum " ++ toSafeString (f.standaloneName.getD "") ++ " \x7b" ++ "\n"
    ++ String.intercalate ",\n" (params.map (fun m => m.1 ++ " = " ++ generateType m.2 options))
    ++ "\n" ++ "\x7d"

/-- `generateStandaloneInterface` of the source. -/
def generateStandaloneInterface (f : Fields) (params : List InterfaceMember)
    (superTypes : List AST) (options : Options) : String :=
  (if truthy f.comment then generateComment f.comment f.deprecated ++ "\n" else "")
    ++ "export class " ++ toSafeString (f.standaloneName.getD "") ++ " extends Annotated "
    ++ (if superTypes.length > 0 then
          "extends "
            ++ String.intercalate ", "
              (superTypes.map (fun s => toSafeString (s.standaloneName.getD "")))
            ++ " "
        else "")
    ++ generateInterface params options

/-- `generateStandaloneType` of the source (lodash `omit` strips the
standalone name unconditionally before rendering). -/
def generateStandaloneType (ast : AST) (options : Options) : String :=
  let generatedType :=
    generateType (AST.mapFields (fun f => { f with standaloneName := none }) ast) options
  let suffix :=
    if generatedType.data.head? == some '\x7b' then
      "export class " ++ toSafeString (ast.standaloneName.getD "") ++ " extends Annotated "
        ++ generatedType
    else
      "export type " ++ toSafeString (ast.standaloneName.getD "") ++ " = " ++ generatedType
  (if truthy ast.comment then generateComment ast.comment false ++ "\n" else "") ++ suffix

mutual

/-- `declareEnums` of the source. The walk's `processed` set dedups
shared node objects by identity; on a tree no node object is reachable
twice within one walk, so the set is modelled away. The `INTERFACE`
branch folds over `getSuperTypesAndParams` (member nodes first, then
supertypes). -/
def declareEnums (ast : AST) (options : Options) : String :=
  match ast with
  | .enumNode f ps => generateStandaloneEnum f ps options ++ "\n"
  | .arrayNode _ p => declareEnums p options
  | .unionNode _ ps => declareEnumsList ps options
  | .intersectionNode _ ps => declareEnumsList ps options
  | .tupleNode _ ps _ _ sp =>
      declareEnumsList ps options
        ++ (match sp with
            | some s => declareEnums s options
            | none => "")
  | .interfaceNode _ ms sts => declareEnumsMembers ms options ++ declareEnumsList sts options
  | _ => ""

/-- The `reduce`-style concatenation of `declareEnums` over a node list. -/
def declareEnumsList (ts : List AST) (options : Options) : String :=
  match ts with
  | [] => ""
  | t :: rest => declareEnums t options ++ declareEnumsList rest options

/-- `declareEnums` over the member nodes of an interface. -/
def declareEnumsMembers (ms : List InterfaceMember) (options : Options) : String :=
  match ms with
  | [] => ""
  | (_, a, _, _, _) :: rest => declareEnums a options ++ declareEnumsMembers rest options

end

mutual

/-- `declareNamedInterfaces` of the source (the tree-model remark on the
per-walk `processed` set from `declareEnums` applies here as well). -/
def declareNamedInterfaces (ast : AST) (options : Options) (rootASTName : Option String) :
    String :=
  match ast with
  | .arrayNode _ p => declareNamedInterfaces p options rootASTName
  | .interfaceNode f ms sts =>
      let head :=
        if f.standaloneName.isSome
            && (f.standaloneName == rootASTName || options.declareExternallyReferenced) then
          generateStandaloneInterface f ms sts options
        else ""
      let rest :=
        String.intercalate "\n"
          ((declareNamedInterfacesMembers ms options rootASTName
              ++ declareNamedInterfacesList sts options rootASTName).filter (fun s => s != ""))
      String.intercalate "\n" (([head, rest]).filter (fun s => s != ""))
  | .intersectionNode _ ps =>
      String.intercalate "\n"
        ((declareNamedInterfacesList ps options rootASTName).filter (fun s => s != ""))
  | .unionNode _ ps =>
      String.intercalate "\n"
        ((declareNamedInterfacesList ps options rootASTName).filter (fun s => s != ""))
  | .tupleNode _ ps _ _ sp =>
      String.intercalate "\n"
          ((declareNamedInterfacesList ps options rootASTName).filter (fun s => s != ""))
        ++ (match sp with
            | some s => declareNamedInterfaces s options rootASTName
            | none => "")
  | _ => ""

/-- `declareNamedInterfaces` mapped over a node list. -/
def declareNamedInterfacesList (ts : List AST) (options : Options)
    (rootASTName : Option String) : List String :=
  match ts with
  | [] => []
  | t :: rest =>
      declareNamedInterfaces t options rootASTName
        :: declareNamedInterfacesList rest options rootASTName

/-- `declareNamedInterfaces` mapped over an interface's member nodes. -/
def declareNamedInterfacesMembers (ms : List InterfaceMember) (options : Options)
    (rootASTName : Option String) : List String :=
  match ms with
  | [] => []
  | (_, a, _, _, _) :: rest =>
      declareNamedInterfaces a options rootASTName
        :: declareNamedInterfacesMembers rest options rootASTName

end

mutual

/-- `declareNamedTypes` of the source (same tree-model remark on the
per-walk `processed` set). -/
def declareNamedTypes (ast : AST) (options : Options) (rootASTName : Option String) : String :=
  match ast with
  | .arrayNode _ p =>
      String.intercalate "\n"
        (([declareNamedTypes p options rootASTName,
            if hasStandaloneName ast then generateStandaloneType ast options else ""]).filter
          (fun s => s != ""))
  | .enumNode _ _ => ""
  | .interfaceNode _ ms sts =>
      String.intercalate "\n"
        ((declareNamedTypesGatedMembers ms options rootASTName
            ++ declareNamedTypesGatedList sts options rootASTName).filter (fun s => s != ""))
  | .intersectionNode _ ps =>
      String.intercalate "\n"
        (([if hasStandaloneName ast then generateStandaloneType ast options else "",
            String.intercalate "\n"
              ((declareNamedTypesList ps options rootASTName).filter (fun s => s != "")),
            ""]).filter (fun s => s != ""))
  | .unionNode _ ps =>
      String.intercalate "\n"
        (([if hasStandaloneName ast then generateStandaloneType ast options else "",
            String.intercalate "\n"
              ((declareNamedTypesList ps options rootASTName).filter (fun s => s != "")),
            ""]).filter (fun s => s != ""))
  | .tupleNode _ ps _ _ sp =>
      String.intercalate "\n"
        (([if hasStandaloneName ast then generateStandaloneType ast options else "",
            String.intercalate "\n"
              ((declareNamedTypesList ps options rootASTName).filter (fun s => s != "")),
            match sp with
            | some s => declareNamedTypes s options rootASTName
            | none => ""]).filter (fun s => s != ""))
  | _ => if hasStandaloneName ast then generateStandaloneType ast options else ""

/-- `declareNamedTypes` mapped over a node list (ungated; the
`UNION`/`INTERSECTION`/`TUPLE` branches). -/
def declareNamedTypesList (ts : List AST) (options : Options)
    (rootASTName : Option String) : List String :=
  match ts with
  | [] => []
  | t :: rest =>
      declareNamedTypes t options rootASTName :: declareNamedTypesList rest options rootASTName

/-- The `INTERFACE` branch of `declareNamedTypes` over
`getSuperTypesAndParams`: each node is walked only when its standalone
name equals the root name or `declareExternallyReferenced` is set
(member nodes first, then supertypes). -/
def declareNamedTypesGatedList (ts : List AST) (options : Options)
    (rootASTName : Option String) : List String :=
  match ts with
  | [] => []
  | t :: rest =>
      (if t.standaloneName == rootASTName || options.declareExternallyReferenced then
          declareNamedTypes t options rootASTName
        else "")
        :: declareNamedTypesGatedList rest options rootASTName

/-- The gated walk over an interface's member nodes. -/
def declareNamedTypesGatedMembers (ms : List InterfaceMember) (options : Options)
    (rootASTName : Option String) : List String :=
  match ms with
  | [] => []
  | (_, a, _, _, _) :: rest =>
      (if a.standaloneName == rootASTName || options.declareExternallyReferenced then
          declareNamedTypes a options rootASTName
        else "")
        :: declareNamedTypesGatedMembers rest options rootASTName

end

/-- `generate` of the source: the fixed runtime-support text followed by
the banner comment and the three declaration walks, the nonempty parts
joined by blank lines, with a trailing newline. -/
def generate (ast : AST) (options : Options) : String :=
  runtimeSupportText
    ++ (String.intercalate "\n\n"
          (([options.bannerComment,
              declareNamedTypes ast options ast.standaloneName,
              declareNamedInterfaces ast options ast.standaloneName,
              declareEnums ast options]).filter (fun s => s != ""))
        ++ "\n")

mutual

/-- Structural equality of nodes (used to model the memo cache's key
lookup: on a tree, looking up the very same node by identity coincides
with structural lookup). -/
def astBeq (a b : AST) : Bool :=
  match a with
  | .anyNode f =>
      match b with
      | .anyNode g => f == g
      | _ => false
  | .unknownNode f =>
      match b with
      | .unknownNode g => f == g
      | _ => false
  | .neverNode f =>
      match b with
      | .neverNode g => f == g
      | _ => false
  | .nullNode f =>
      match b with
      | .nullNode g => f == g
      | _ => false
  | .booleanNode f =>
      match b with
      | .booleanNode g => f == g
      | _ => false
  | .numberNode f =>
      match b with
      | .numberNode g => f == g
      | _ => false
  | .objectNode f =>
      match b with
      | .objectNode g => f == g
      | _ => false
  | .stringNode f =>
      match b with
      | .stringNode g => f == g
      | _ => false
  | .literalNode f v =>
      match b with
      | .literalNode g w => f == g && v == w
      | _ => false
  | .referenceNode f v =>
      match b with
      | .referenceNode g w => f == g && v == w
      | _ => false
  | .customNode f v =>
      match b with
      | .customNode g w => f == g && v == w
      | _ => false
  | .arrayNode f p =>
      match b with
      | .arrayNode g q => f == g && astBeq p q
      | _ => false
  | .tupleNode f ps mi ma sp =>
      match b with
      | .tupleNode g qs mj mb sq =>
          f == g && astListBeq ps qs && mi == mj && ma == mb &&
            (match sp with
             | none =>
                 match sq with
                 | none => true
                 | _ => false
             | some x =>
                 match sq with
                 | some y => astBeq x y
                 | _ => false)
      | _ => false
  | .unionNode f ps =>
      match b with
      | .unionNode g qs => f == g && astListBeq ps qs
      | _ => false
  | .intersectionNode f ps =>
      match b with
      | .intersectionNode g qs => f == g && astListBeq ps qs
      | _ => false
  | .interfaceNode f ms sts =>
      match b with
      | .interfaceNode g ns tts => f == g && astMembersBeq ms ns && astListBeq sts tts
      | _ => false
  | .enumNode f ms =>
      match b with
      | .enumNode g ns => f == g && astEnumMembersBeq ms ns
      | _ => false
termination_by structural a

def astListBeq (a b : List AST) : Bool :=
  match a with
  | [] =>
      match b with
      | [] => true
      | _ => false
  | x :: xs =>
      match b with
      | y :: ys => astBeq x y && astListBeq xs ys
      | _ => false
termination_by structural a

def astMembersBeq (a b : List InterfaceMember) : Bool :=
  match a with
  | [] =>
      match b with
      | [] => true
      | _ => false
  | (k, x, r, pp, ud) :: xs =>
      match b with
      | (l, y, s, qq, vd) :: ys =>
          k == l && astBeq x y && r == s && pp == qq && ud == vd && astMembersBeq xs ys
      | _ => false
termination_by structural a

def astEnumMembersBeq (a b : List (String × AST)) : Bool :=
  match a with
  | [] =>
      match b with
      | [] => true
      | _ => false
  | (k, x) :: xs =>
      match b with
      | (l, y) :: ys => k == l && astBeq x y && astEnumMembersBeq xs ys
      | _ => false
termination_by structural a

end

/-- The lodash `memoize` cache of `generateType`: node → first result. -/
abbrev MemoCache := List (AST × String)

/-- Cache lookup by the FIRST argument only (lodash `memoize` keys the
cache by the first argument; the options are not part of the key). -/
def memoLookup (cache : MemoCache) (k : AST) : Option String :=
  match cache with
  | [] => none
  | (a, r) :: rest => if astBeq a k then some r else memoLookup rest k

/-- `export const generateType = memoize(generateTypeUnmemoized)` of the
source, with the cache made explicit: the cache is module-level state, so
it survives across top-level `generate` calls, and it is keyed by the
node alone. A hit returns the cached text unchanged; a miss computes
`generateTypeUnmemoized` and records it. -/
def generateTypeMemoized (ast : AST) (options : Options) (cache : MemoCache) :
    String × MemoCache :=
  match memoLookup cache ast with
  | some r => (r, cache)
  | none =>
      let r := generateTypeUnmemoized ast options
      (r, (ast, r) :: cache)

mutual

/-- `true` when a tree contains no `UNION` or `INTERSECTION` node. -/
def unionFree (t : AST) : Bool :=
  match t with
  | .unionNode _ _ => false
  | .intersectionNode _ _ => false
  | .arrayNode _ p => unionFree p
  | .tupleNode _ ps _ _ sp =>
      unionFreeList ps
        && (match sp with
            | some s => unionFree s
            | none => true)
  | .interfaceNode _ ms sts => unionFreeMembers ms && unionFreeList sts
  | .enumNode _ ms => unionFreeEnumMembers ms
  | _ => true

def unionFreeList (ts : List AST) : Bool :=
  match ts with
  | [] => true
  | t :: rest => unionFree t && unionFreeList rest

def unionFreeMembers (ms : List InterfaceMember) : Bool :=
  match ms with
  | [] => true
  | (_, a, _, _, _) :: rest => unionFree a && unionFreeMembers rest

def unionFreeEnumMembers (ms : List (String × AST)) : Bool :=
  match ms with
  | [] => true
  | (_, a) :: rest => unionFree a && unionFreeEnumMembers rest

end

/-!
The graph model: nodes live in a store and refer to their children by
integer id, so object identity, shared sub-nodes and cyclic graphs are
representable. The renderer carries lodash-`memoize`'s id-keyed cache
(written only after a call returns, exactly as in the source); the
optimizer carries the identity-keyed `processed` set and performs the
source's in-place mutations as store updates. Recursion is fuel-indexed:
a result `none` means the recursion did not complete within the given
fuel, and a computation that yields `none` for every fuel never returns.
-/

/-- A graph-model interface member: keyName, node id, isRequired,
isPatternProperty, isUnreachableDefinition. -/
abbrev GMember := String × Nat × Bool × Bool × Bool

/-- Graph-model nodes: the same variants as `AST`, with children as ids. -/
inductive GNode where
  | anyNode (f : Fields)
  | unknownNode (f : Fields)
  | neverNode (f : Fields)
  | nullNode (f : Fields)
  | booleanNode (f : Fields)
  | numberNode (f : Fields)
  | objectNode (f : Fields)
  | stringNode (f : Fields)
  | literalNode (f : Fields) (value : String)
  | referenceNode (f : Fields) (name : String)
  | customNode (f : Fields) (params : String)
  | arrayNode (f : Fields) (param : Nat)
  | tupleNode (f : Fields) (params : List Nat) (minItems : Int) (maxItems : Int)
      (spreadParam : Option Nat)
  | unionNode (f : Fields) (params : List Nat)
  | intersectionNode (f : Fields) (params : List Nat)
  | interfaceNode (f : Fields) (params : List GMember) (superTypes : List Nat)
  | enumNode (f : Fields) (params : List (String × Nat))
deriving DecidableEq

/-- The node store: id → node (the object graph). -/
abbrev Store := List (Nat × GNode)

/-- The identity-keyed `processed` (visited) set of one optimize pass. -/
abbrev Visited := List Nat

/-- The id-keyed render memo cache. -/
abbrev GCache := List (Nat × String)

def lookupStore : Store → Nat → Option GNode
  | [], _ => none
  | (m, node) :: rest, n => if m == n then some node else lookupStore rest n

/-- In-place mutation of a node (`Object.assign(ast, ...)`): replace the
binding of an existing id. -/
def updateStore : Store → Nat → GNode → Store
  | [], _, _ => []
  | (m, x) :: rest, n, node =>
      if m == n then (n, node) :: rest else (m, x) :: updateStore rest n node

/-- A fresh id, not bound in the store. -/
def freshId (st : Store) : Nat :=
  (st.map (fun b => b.1)).foldr max 0 + 1

/-- Allocate a fresh node (a new object created by the optimizer, such as
`{...T_STRING, comment}` or the merged interface). -/
def allocNode (st : Store) (node : GNode) : Nat × Store :=
  (freshId st, (freshId st, node) :: st)

def gcacheLookup : GCache → Nat → Option String
  | [], _ => none
  | (m, r) :: rest, n => if m == n then some r else gcacheLookup rest n

/-- The reserved id of the shared `T_STRING` module constant. -/
def T_STRING_ID : Nat := 0

/-- The reserved id of the shared `T_ANY` module constant. -/
def T_ANY_ID : Nat := 1

/-- The reserved id of the shared `T_UNKNOWN` module constant. -/
def T_UNKNOWN_ID : Nat := 2

/-- The store bindings of the shared module constants (these single
objects exist before any pass runs and are returned by reference). -/
def constNodes : Store :=
  [(T_STRING_ID, .stringNode {}), (T_ANY_ID, .anyNode {}), (T_UNKNOWN_ID, .unknownNode {})]

def GNode.fields : GNode → Fields
  | .anyNode f => f
  | .unknownNode f => f
  | .neverNode f => f
  | .nullNode f => f
  | .booleanNode f => f
  | .numberNode f => f
  | .objectNode f => f
  | .stringNode f => f
  | .literalNode f _ => f
  | .referenceNode f _ => f
  | .customNode f _ => f
  | .arrayNode f _ => f
  | .tupleNode f _ _ _ _ => f
  | .unionNode f _ => f
  | .intersectionNode f _ => f
  | .interfaceNode f _ _ => f
  | .enumNode f _ => f

def GNode.standaloneName (t : GNode) : Option String := t.fields.standaloneName

def GNode.comment (t : GNode) : Option String := t.fields.comment

def GNode.deprecated (t : GNode) : Bool := t.fields.deprecated

def GNode.keyName (t : GNode) : Option String := t.fields.keyName

/-- The `type` tag of a graph node. -/
def GNode.typeName : GNode → String
  | .anyNode _ => "ANY"
  | .unknownNode _ => "UNKNOWN"
  | .neverNode _ => "NEVER"
  | .nullNode _ => "NULL"
  | .booleanNode _ => "BOOLEAN"
  | .numberNode _ => "NUMBER"
  | .objectNode _ => "OBJECT"
  | .stringNode _ => "STRING"
  | .literalNode _ _ => "LITERAL"
  | .referenceNode _ _ => "REFERENCE"
  | .customNode _ _ => "CUSTOM_TYPE"
  | .arrayNode _ _ => "ARRAY"
  | .tupleNode _ _ _ _ _ => "TUPLE"
  | .unionNode _ _ => "UNION"
  | .intersectionNode _ _ => "INTERSECTION"
  | .interfaceNode _ _ _ => "INTERFACE"
  | .enumNode _ _ => "ENUM"

def gHasStandaloneName (t : GNode) : Bool := t.standaloneName.isSome

/-- The element id of an `ARRAY` graph node. -/
def GNode.arrayParam : GNode → Nat
  | .arrayNode _ p => p
  | _ => T_ANY_ID

/-- The parameter ids of a `UNION`/`INTERSECTION` graph node. -/
def GNode.setParams : GNode → List Nat
  | .unionNode _ ps => ps
  | .intersectionNode _ ps => ps
  | _ => []

/-- The members of an `INTERFACE` graph node. -/
def GNode.interfaceParams : GNode → List GMember
  | .interfaceNode _ ms _ => ms
  | _ => []

/-- Placeholder graph member for (unreachable) head lookups. -/
def gDummyMember : GMember := ("", T_ANY_ID, false, false, false)

/-- A node read through the store; the default is only reachable on
malformed stores (in the source an absent object would fault earlier). -/
def gNodeAt (st : Store) (n : Nat) : GNode :=
  (lookupStore st n).getD (.anyNode {})

/-- `handleUnionRecursively`, graph side (field reads become store
lookups). -/
def handleUnionRecursivelyG (st : Store) (node : GNode) (keyName : String)
    (type : String) (isRequired : Bool) : String :=
  match node.setParams.head? with
  | none => ""
  | some p0id =>
    let p0 := gNodeAt st p0id
    if p0.typeName == "ARRAY" then
      let elem := gNodeAt st p0.arrayParam
      let sn0 := p0.standaloneName
      let standaloneName := if truthy sn0 then sn0 else elem.standaloneName
      generateEndNodes keyName type elem.typeName isRequired standaloneName
        node.comment node.deprecated (some .array)
    else if p0.typeName == "INTERFACE" && !truthy p0.standaloneName
        && p0.interfaceParams.length == 1
        && escapeKeyName (p0.interfaceParams.headD gDummyMember).1 == "[k: string]" then
      let inner := gNodeAt st (p0.interfaceParams.headD gDummyMember).2.1
      generateEndNodes keyName type inner.typeName isRequired inner.standaloneName
        node.comment node.deprecated (some .map)
    else
      let sn0 := node.standaloneName
      let standaloneName := if truthy sn0 then sn0 else p0.standaloneName
      generateEndNodes keyName type p0.typeName isRequired standaloneName
        node.comment node.deprecated (some .basic)

/-- The member classification of `generateInterface`, graph side. -/
def gInterfaceMember (st : Store) (keyName : String) (mid : Nat) (isRequired : Bool)
    (type : String) (allKeys : List String) : String :=
  let mast := gNodeAt st mid
  let commentString :=
    if truthy mast.comment then generateComment mast.comment mast.deprecated ++ "\n" else ""
  let accessor := fun (ctor : String) =>
    commentString ++ "get " ++ escapeKeyName keyName
      ++ "() \x7b\n return getMapEntry(this.node, \x27" ++ escapeKeyName keyName
      ++ "\x27, this.uri, " ++ ctor ++ ")" ++ "\n\x7d"
  let plainField :=
    (if truthy mast.comment && !truthy mast.standaloneName then
        generateComment mast.comment mast.deprecated ++ "\n"
      else "")
      ++ escapeKeyName keyName ++ (if isRequired then "" else "?") ++ ": " ++ type
  if isAnnotatedString mast.typeName && escapeKeyName keyName != "[k: string]" then
    accessor "AnnotatedString"
  else if mast.typeName == "BOOLEAN" && escapeKeyName keyName != "[k: string]" then
    accessor "AnnotatedBoolean"
  else if mast.typeName == "INTERFACE" && truthy mast.standaloneName
      && escapeKeyName keyName != "[k: string]" then
    accessor (mast.standaloneName.getD "")
  else if mast.typeName == "ARRAY" && escapeKeyName keyName != "[k: string]" then
    let elem := gNodeAt st mast.arrayParam
    generateEndNodes keyName type elem.typeName isRequired elem.standaloneName
      mast.comment mast.deprecated (some .array)
  else if (mast.typeName == "UNION" || mast.typeName == "INTERSECTION")
      && escapeKeyName keyName != "[k: string]" && mast.setParams.length == 1 then
    handleUnionRecursivelyG st mast keyName type isRequired
  else if mast.typeName == "INTERFACE" && !truthy mast.standaloneName
      && mast.interfaceParams.length == 1
      && escapeKeyName (mast.interfaceParams.headD gDummyMember).1 == "[k: string]" then
    let inner := gNodeAt st (mast.interfaceParams.headD gDummyMember).2.1
    generateEndNodes keyName type inner.typeName isRequired inner.standaloneName
      mast.comment mast.deprecated (some .map)
  else if allKeys.length > 0 then
    if escapeKeyName keyName != "[k: string]" then plainField
    else ""
  else plainField

/-- `allKeys` of `generateInterface`, graph side. -/
def gInterfaceAllKeys (params : List GMember) : List String :=
  ((params.filter (fun m => !m.2.2.2.1 && !m.2.2.2.2)).filter
      (fun m => escapeKeyName m.1 != "[k: string]")).map (fun m => escapeKeyName m.1)

/-- Render each id in turn, threading the memo cache. -/
def renderEachG (render : Nat → GCache → Option (String × GCache)) :
    List Nat → GCache → Option (List String × GCache)
  | [], cache => some ([], cache)
  | n :: rest, cache =>
      match render n cache with
      | none => none
      | some (s, cache1) =>
          match renderEachG render rest cache1 with
          | none => none
          | some (ss, cache2) => some (s :: ss, cache2)

/-- The member walk of `generateInterface`, graph side: visible members
are rendered (threading the cache) and classified. -/
def renderMembersG (render : Nat → GCache → Option (String × GCache))
    (classify : String → Nat → Bool → String → String) :
    List GMember → GCache → Option (List String × GCache)
  | [], cache => some ([], cache)
  | (k, a, r, pp, ud) :: rest, cache =>
      if pp || ud then renderMembersG render classify rest cache
      else
        match render a cache with
        | none => none
        | some (t, cache1) =>
            match renderMembersG render classify rest cache1 with
            | none => none
            | some (ss, cache2) => some (classify k a r t :: ss, cache2)

/-- `generateType = memoize(generateTypeUnmemoized)` on the graph: the
body inlines `generateTypeUnmemoized` and `generateRawType` exactly as
the tree model does, with the memo cache explicit. A cache hit returns
immediately; otherwise the result is computed first and the cache entry
is written only after the computation returns — in-flight recursion on
the same node therefore misses the cache, as in lodash `memoize`. -/
def genTypeG : Nat → Options → Store → Nat → GCache → Option (String × GCache)
  | 0, _, _, _, _ => none
  | Nat.succ fuel, options, st, n, cache =>
    match gcacheLookup cache n with
    | some r => some (r, cache)
    | none =>
      match lookupStore st n with
      | none => none
      | some node =>
        let rawRes : Option (String × GCache) :=
          if gHasStandaloneName node then
            some (toSafeString (node.standaloneName.getD ""), cache)
          else
            match node with
            | .anyNode _ => some ("any", cache)
            | .arrayNode _ p =>
                match genTypeG fuel options st p cache with
                | none => none
                | some (t, cache1) =>
                    some ((if t.data.getLast? == some '"' then "(" ++ t ++ ")[]"
                           else t ++ "[]"), cache1)
            | .booleanNode _ => some ("boolean", cache)
            | .interfaceNode _ ms _ =>
                match renderMembersG (fun m c => genTypeG fuel options st m c)
                    (fun k a r t => gInterfaceMember st k a r t (gInterfaceAllKeys ms))
                    ms cache with
                | none => none
                | some (ss, cache1) =>
                    some (assembleInterface ss (gInterfaceAllKeys ms), cache1)
            | .intersectionNode _ ps =>
                match renderEachG (fun m c => genTypeG fuel options st m c) ps cache with
                | none => none
                | some (ss, cache1) => some (setOperationText false ss, cache1)
            | .literalNode _ v => some (jsonStringify v, cache)
            | .neverNode _ => some ("never", cache)
            | .numberNode _ => some ("number", cache)
            | .nullNode _ => some ("null", cache)
            | .objectNode _ => some ("object", cache)
            | .referenceNode _ nm => some (nm, cache)
            | .stringNode _ => some ("string", cache)
            | .tupleNode _ ps mi ma sp =>
                -- `ast.maxItems || -1`, padding with the shared
                -- `T_UNKNOWN`/`T_ANY` constants, then the shape emission
                let maxItems : Int := if ma == 0 then -1 else ma
                let padIds :=
                  if maxItems > (ps.length : Int) && sp.isNone then
                    List.replicate (maxItems - (ps.length : Int)).toNat
                      (if options.unknownAny then T_UNKNOWN_ID else T_ANY_ID)
                  else []
                match renderEachG (fun m c => genTypeG fuel options st m c)
                    (ps ++ padIds) cache with
                | none => none
                | some (texts, cache1) =>
                    let spreadRes : Option (Option String × GCache) :=
                      match sp with
                      | some spid =>
                          match genTypeG fuel options st spid cache1 with
                          | none => none
                          | some (t, cache2) => some (some ("...(" ++ t ++ ")[]"), cache2)
                      | none =>
                          if mi > 0 && mi > (ps.length : Int) && maxItems < 0 then
                            -- spread the shared Any/Unknown constant
                            match genTypeG fuel options st
                                (if options.unknownAny then T_UNKNOWN_ID else T_ANY_ID)
                                cache1 with
                            | none => none
                            | some (t, cache2) => some (some ("...(" ++ t ++ ")[]"), cache2)
                          else some (none, cache1)
                    match spreadRes with
                    | none => none
                    | some (spreadText, cache2) =>
                        some (tupleShapesText texts mi spreadText, cache2)
            | .unionNode _ ps =>
                match renderEachG (fun m c => genTypeG fuel options st m c) ps cache with
                | none => none
                | some (ss, cache1) => some (setOperationText true ss, cache1)
            | .unknownNode _ => some ("unknown", cache)
            | .customNode _ txt => some (txt, cache)
            | .enumNode _ _ => some ("", cache)
        match rawRes with
        | none => none
        | some (type, cache1) =>
            let r :=
              if options.strictIndexSignatures && node.keyName == some "[k: string]" then
                type ++ " | undefined"
              else type
            some (r, (n, r) :: cache1)

/-- Rebuild a graph node with updated common fields. -/
def GNode.mapFields (g : Fields → Fields) : GNode → GNode
  | .anyNode f => .anyNode (g f)
  | .unknownNode f => .unknownNode (g f)
  | .neverNode f => .neverNode (g f)
  | .nullNode f => .nullNode (g f)
  | .booleanNode f => .booleanNode (g f)
  | .numberNode f => .numberNode (g f)
  | .objectNode f => .objectNode (g f)
  | .stringNode f => .stringNode (g f)
  | .literalNode f v => .literalNode (g f) v
  | .referenceNode f v => .referenceNode (g f) v
  | .customNode f v => .customNode (g f) v
  | .arrayNode f p => .arrayNode (g f) p
  | .tupleNode f ps mi ma sp => .tupleNode (g f) ps mi ma sp
  | .unionNode f ps => .unionNode (g f) ps
  | .intersectionNode f ps => .intersectionNode (g f) ps
  | .interfaceNode f ms sts => .interfaceNode (g f) ms sts
  | .enumNode f ms => .enumNode (g f) ms

/-- `omitStandaloneName` on graph nodes (the copy `{...ast,
standaloneName: undefined}`, except on `ENUM`). -/
def omitStandaloneNameG (node : GNode) : GNode :=
  match node with
  | .enumNode _ _ => node
  | _ => GNode.mapFields (fun f => { f with standaloneName := none }) node

/-- Optimize each id in turn, threading the store and the shared
`processed` set (the source's `params.map(_ => optimize(_, options,
processed))`). -/
def optimizeEachG (step : Nat → Store → Visited → Option (Nat × Store × Visited)) :
    List Nat → Store → Visited → Option (List Nat × Store × Visited)
  | [], st, vis => some ([], st, vis)
  | n :: rest, st, vis =>
      match step n st vis with
      | none => none
      | some (n1, st1, vis1) =>
          match optimizeEachG step rest st1 vis1 with
          | none => none
          | some (ns, st2, vis2) => some (n1 :: ns, st2, vis2)

/-- The `INTERFACE` branch's first member pass (`Object.assign(_, {ast:
optimize(_.ast, ...)})`), graph side. -/
def optimizeMembersEachG (step : Nat → Store → Visited → Option (Nat × Store × Visited)) :
    List GMember → Store → Visited → Option (List GMember × Store × Visited)
  | [], st, vis => some ([], st, vis)
  | (k, a, r, pp, ud) :: rest, st, vis =>
      match step a st vis with
      | none => none
      | some (a1, st1, vis1) =>
          match optimizeMembersEachG step rest st1 vis1 with
          | none => none
          | some (ms, st2, vis2) => some ((k, a1, r, pp, ud) :: ms, st2, vis2)

/-- The `INTERFACE` branch's second member pass: flatten named-`String`
members, allocating the fresh commented-`String` copies the source
creates (the plain replacement is the shared `T_STRING` constant). -/
def flattenMembersG : Store → List GMember → List GMember × Store
  | st, [] => ([], st)
  | st, (k, a, r, pp, ud) :: rest =>
      let anode := gNodeAt st a
      if truthy anode.standaloneName && anode.typeName == "STRING" then
        if truthy anode.comment then
          let (m, st1) := allocNode st (.stringNode { comment := anode.comment })
          let (ms, st2) := flattenMembersG st1 rest
          ((k, m, r, pp, ud) :: ms, st2)
        else
          let (ms, st1) := flattenMembersG st rest
          ((k, T_STRING_ID, r, pp, ud) :: ms, st1)
      else
        let (ms, st1) := flattenMembersG st rest
        ((k, a, r, pp, ud) :: ms, st1)

/-- Render each id through `genTypeG` with a fresh cache (used by the
dedup rules; within one optimize pass no node is mutated after it has
first been rendered, so the module-level cache shared with the renderer
cannot change any of these texts). -/
def renderTextsG (fuel : Nat) (options : Options) (st : Store) :
    List Nat → Option (List String)
  | [] => some []
  | p :: rest =>
      match genTypeG fuel options st p [] with
      | none => none
      | some (t, _) =>
          match renderTextsG fuel options st rest with
          | none => none
          | some ts => some (t :: ts)

/-- Render the fresh `omitStandaloneName` copy of each id (rule e of the
set-operation branch creates a new stripped object per comparison, which
can never hit the memo cache). -/
def renderStrippedTextsG (fuel : Nat) (options : Options) (st : Store) :
    List Nat → Option (List String)
  | [] => some []
  | p :: rest =>
      let tmp := freshId st
      match genTypeG fuel options ((tmp, omitStandaloneNameG (gNodeAt st p)) :: st) tmp [] with
      | none => none
      | some (t, _) =>
          match renderStrippedTextsG fuel options st rest with
          | none => none
          | some ts => some (t :: ts)

/-- lodash `uniqBy` over ids paired with their rendered texts. -/
def uniqByTextG : List (Nat × String) → List String → List Nat
  | [], _ => []
  | (p, t) :: rest, seen =>
      if seen.contains t then uniqByTextG rest seen
      else p :: uniqByTextG rest (seen ++ [t])

/-- The union-of-interfaces member merge, graph side. -/
def mergeInterfaceMembersG (st : Store) (ps : List Nat) : List GMember :=
  ps.foldl
    (fun acc p =>
      match lookupStore st p with
      | some (.interfaceNode _ ms _) =>
          ms.foldl (fun acc m => if acc.any (fun a => a.1 == m.1) then acc else acc ++ [m]) acc
      | _ => acc)
    []

/-- `optimize` of the source on the graph model, with the identity-keyed
`processed` set explicit (the set is shared down the recursion, exactly
as the mutable JS `Set` is) and in-place node mutation as store updates.
Fresh nodes created by the pass are allocated; the shared module
constants `T_STRING`/`T_ANY`/`T_UNKNOWN` are returned as their reserved
ids. Each recursive call consumes one unit of fuel; `none` means the
recursion did not complete within the fuel. -/
def optimizeG : Nat → Options → Store → Nat → Visited → Option (Nat × Store × Visited)
  | 0, _, _, _, _ => none
  | Nat.succ fuel, options, st, n, vis =>
    -- `if (processed.has(ast)) return ast`
    if vis.contains n then some (n, st, vis)
    else
      -- `processed.add(ast)`
      let vis1 := n :: vis
      match lookupStore st n with
      | none => none
      | some node =>
        match node with
        | .literalNode f _ =>
            if truthy f.comment then
              let (m, st1) := allocNode st (.stringNode { comment := f.comment })
              some (m, st1, vis1)
            else some (T_STRING_ID, st, vis1)
        | .arrayNode f p =>
            match optimizeG fuel options st p vis1 with
            | none => none
            | some (p1, st1, vis2) =>
                let st2 := updateStore st1 n (.arrayNode f p1)
                let pn := gNodeAt st2 p1
                if truthy pn.standaloneName && pn.typeName == "STRING" then
                  if truthy pn.comment then
                    let (m, st3) := allocNode st2 (.stringNode { comment := pn.comment })
                    some (n, updateStore st3 n (.arrayNode f m), vis2)
                  else some (n, updateStore st2 n (.arrayNode f T_STRING_ID), vis2)
                else some (n, st2, vis2)
        | .tupleNode f ps mi ma sp =>
            match optimizeEachG (fun m s v => optimizeG fuel options s m v) ps st vis1 with
            | none => none
            | some (ps1, st1, vis2) =>
                some (n, updateStore st1 n (.tupleNode f ps1 mi ma sp), vis2)
        | .interfaceNode f ms sts =>
            match optimizeMembersEachG (fun m s v => optimizeG fuel options s m v) ms st vis1 with
            | none => none
            | some (ms1, st1, vis2) =>
                let st2 := updateStore st1 n (.interfaceNode f ms1 sts)
                let p := flattenMembersG st2 ms1
                let st3 := updateStore p.2 n (.interfaceNode f p.1 sts)
                -- `ast = optimize(ast, options, processed)`: re-enters the
                -- visited set mid-recursion
                optimizeG fuel options st3 n vis2
        | .unionNode _ _ | .intersectionNode _ _ =>
            let f := node.fields
            let isUnion := node.typeName == "UNION"
            let ps := node.setParams
            let rebuild := fun (qs : List Nat) =>
              if isUnion then GNode.unionNode f qs else GNode.intersectionNode f qs
            match optimizeEachG (fun m s v => optimizeG fuel options s m v) ps st vis1 with
            | none => none
            | some (ps0, st0, vis2) =>
              let st1 := updateStore st0 n (rebuild ps0)
              -- [A, B, C, null] -> [A, B, C]
              let hasNull := ps0.any (fun p => (gNodeAt st1 p).typeName == "NULL")
              let psA :=
                if hasNull then ps0.filter (fun p => (gNodeAt st1 p).typeName != "NULL")
                else ps0
              let st2 := if hasNull then updateStore st1 n (rebuild psA) else st1
              -- [A, B, C, Any] -> Any
              if psA.any (fun p => (gNodeAt st2 p).typeName == "ANY") then
                some (T_ANY_ID, st2, vis2)
              -- [A, B, C, Unknown] -> Unknown
              else if psA.any (fun p => (gNodeAt st2 p).typeName == "UNKNOWN") then
                some (T_UNKNOWN_ID, st2, vis2)
              -- [union of string literals] -> string
              else if psA.all (fun p =>
                  let tn := (gNodeAt st2 p).typeName
                  tn == "LITERAL" || tn == "STRING" || tn == "NULL") then
                if truthy f.comment then
                  let (m, st3) := allocNode st2 (.stringNode { comment := f.comment })
                  some (m, st3, vis2)
                else some (T_STRING_ID, st2, vis2)
              else
                -- [A (named), A] -> [A (named)]
                match renderStrippedTextsG fuel options st2 psA with
                | none => none
                | some strippedTexts =>
                  let eFires := strippedTexts.all (fun t => t == strippedTexts.headD "")
                      && psA.any (fun p => (gNodeAt st2 p).standaloneName.isSome)
                  let psB :=
                    if eFires then psA.filter (fun p => (gNodeAt st2 p).standaloneName.isSome)
                    else psA
                  let st3 := if eFires then updateStore st2 n (rebuild psB) else st2
                  -- [A, B, B] -> [A, B]
                  match renderTextsG fuel options st3 psB with
                  | none => none
                  | some plainTexts =>
                    let psC := uniqByTextG (psB.zip plainTexts) []
                    let st4 :=
                      if psC.length != psB.length then updateStore st3 n (rebuild psC)
                      else st3
                    -- [union of interfaces] -> a single merged interface
                    if psC.length > 1
                        && psC.all (fun p => (gNodeAt st4 p).typeName == "INTERFACE") then
                      let q := allocNode st4
                        (.interfaceNode { comment := f.comment }
                          (mergeInterfaceMembersG st4 psC) [])
                      some (n, updateStore q.2 n (rebuild [q.1]), vis2)
                    else
                      -- final re-optimization of the surviving parameters
                      match optimizeEachG (fun m s v => optimizeG fuel options s m v)
                          psC st4 vis2 with
                      | none => none
                      | some (psD, st5, vis3) =>
                          some (n, updateStore st5 n (rebuild psD), vis3)
        | _ => some (n, st, vis1)

/-!
Theorems settling the claims, with their concrete example inputs.
-/

/-- The tuple of claim C3: `min_items = 1`, `max_items = 3`,
`params = [String]`, no spread parameter. -/
def c3Tuple : AST := .tupleNode {} [.stringNode {}] 1 3 none

/-- C3 counterexample: the tuple renders as the union of THREE shapes,
one per length from `min_items` (1) up to `max_items` (3) — not as the
two-shape text `[string]|[string, unknown]` that the claim asserts. -/
theorem c3_counterexample :
    generateType c3Tuple { unknownAny := true } =
        "[string]|[string, unknown]|[string, unknown, unknown]" ∧
      generateType c3Tuple { unknownAny := true } ≠ "[string]|[string, unknown]" :=
  ⟨rfl, by decide⟩

/-- C3 amended: rendering the tuple with `min_items=1, max_items=3,
params=[String]` and no spread produces exactly
`[string]|[string, unknown]|[string, unknown, unknown]` (with `any` in
place of `unknown` when the `unknownAny` option is off) — the union of
incrementally longer fixed-length tuple shapes, one per length from
`min_items` up to `max_items`. -/
theorem c3_amended :
    generateType c3Tuple { unknownAny := true } =
        "[string]|[string, unknown]|[string, unknown, unknown]" ∧
      generateType c3Tuple { unknownAny := false } =
        "[string]|[string, any]|[string, any, any]" :=
  ⟨rfl, rfl⟩

/-- C10: a `TUPLE` node with `max_items = 0` renders exactly as if
`max_items` were `-1` (unbounded): the renderer coerces the falsy `0` to
`-1` (`ast.maxItems || -1`) before the padding and union-of-lengths
construction, for every parameter list, `min_items`, spread parameter,
common fields and options. -/
theorem c10_tuple_max_zero (f : Fields) (ps : List AST) (mi : Int) (sp : Option AST)
    (options : Options) :
    generateType (.tupleNode f ps mi 0 sp) options =
      generateType (.tupleNode f ps mi (-1) sp) options := by
  rw [generateType.eq_def, generateType.eq_def]
  simp [tupleTextFromParts, hasStandaloneName, AST.standaloneName, AST.keyName, AST.fields]

/-- First interface of claim C4's example (`Interface{a:String}`). -/
def c4InterfaceA : AST := .interfaceNode {} [("a", .stringNode {}, true, false, false)] []

/-- Second interface of claim C4's example (`Interface{b:Number}`). -/
def c4InterfaceB : AST := .interfaceNode {} [("b", .numberNode {}, true, false, false)] []

/-- The union of claim C4's example. -/
def c4Union : AST := .unionNode {} [c4InterfaceA, c4InterfaceB]

/-- C4 counterexample: `optimize(Union[Interface{a:String},
Interface{b:Number}])` does NOT yield an `Interface` node — it yields the
(mutated) `Union` node itself, whose parameter list has been replaced by
the single merged interface with members `[a:String, b:Number]`. -/
theorem c4_counterexample :
    optimize c4Union {} =
        .unionNode {}
          [.interfaceNode {}
            [("a", .stringNode {}, true, false, false), ("b", .numberNode {}, true, false, false)]
            []] ∧
      (optimize c4Union {}).typeName ≠ "INTERFACE" :=
  ⟨rfl, by decide⟩

/-- C4 amended: when, after the set-operation rules (a)–(f), more than
one parameter remains and every one is an `Interface`, `optimize` on the
union returns the Union node with its parameter list replaced by the
single merged `Interface` whose member list is the union of all
parameters' members, keeping the first occurrence of any duplicate key
name (first-parameter-wins); on the concrete example the result is the
Union wrapping the merged `Interface` with members `[a:String,
b:Number]`. -/
theorem c4_amended (f : Fields) (cs : List AST) (options : Options)
    (hany : (dropNullParams (optimizeList cs options)).any
        (fun p => p.typeName == "ANY") = false)
    (hunk : (dropNullParams (optimizeList cs options)).any
        (fun p => p.typeName == "UNKNOWN") = false)
    (hstr : (dropNullParams (optimizeList cs options)).all
        (fun p =>
          p.typeName == "LITERAL" || p.typeName == "STRING" || p.typeName == "NULL") = false)
    (hlen : 1 < (dedupSetParams (dropNullParams (optimizeList cs options)) options).length)
    (hiface : (dedupSetParams (dropNullParams (optimizeList cs options)) options).all
        (fun p => p.typeName == "INTERFACE") = true) :
    optimize (.unionNode f cs) options =
      .unionNode f
        [T_INTERFACE
          (mergeInterfaceMembers
            (dedupSetParams (dropNullParams (optimizeList cs options)) options))
          f.comment] := by
  rw [optimize.eq_def]
  simp [optimizeSetOperation, hany, hunk, hstr, hlen, hiface]

/-- C4 amended, witness at the concrete example. -/
theorem c4_amended_witness :
    optimize c4Union {} =
      .unionNode {}
        [T_INTERFACE
          [("a", .stringNode {}, true, false, false), ("b", .numberNode {}, true, false, false)]
          none] :=
  c4_amended {} [c4InterfaceA, c4InterfaceB] {} (by decide) (by decide) (by decide)
    (by decide) (by decide)

/-- C5: for every Union/Intersection node, after optimizing its
parameters, the rules apply in this exact order — `Null` parameters are
dropped; if any remaining parameter is `Any` the node becomes `Any`;
otherwise if any is `Unknown` it becomes `Unknown`; otherwise if every
remaining parameter is `Literal`, `String`, or `Null` it collapses to
`String` (carrying the node's comment) — and in particular
`optimize(Union[String, Null]) = String`,
`optimize(Union[String, Any]) = Any`, and
`optimize(Union[Literal "a", Literal "b"]) = String`. -/
theorem c5_union_rule_order :
    (∀ (isUnion : Bool) (f : Fields) (ps : List AST) (options : Options),
        ((dropNullParams ps).any (fun p => p.typeName == "ANY") = true →
          optimizeSetOperation isUnion f ps options = T_ANY) ∧
        ((dropNullParams ps).any (fun p => p.typeName == "ANY") = false →
          (dropNullParams ps).any (fun p => p.typeName == "UNKNOWN") = true →
          optimizeSetOperation isUnion f ps options = T_UNKNOWN) ∧
        ((dropNullParams ps).any (fun p => p.typeName == "ANY") = false →
          (dropNullParams ps).any (fun p => p.typeName == "UNKNOWN") = false →
          (dropNullParams ps).all (fun p =>
              p.typeName == "LITERAL" || p.typeName == "STRING" || p.typeName == "NULL") =
            true →
          optimizeSetOperation isUnion f ps options =
            (if truthy f.comment then .stringNode { comment := f.comment } else T_STRING))) ∧
    (∀ (f : Fields) (cs : List AST) (options : Options),
        optimize (.unionNode f cs) options =
            optimizeSetOperation true f (optimizeList cs options) options ∧
          optimize (.intersectionNode f cs) options =
            optimizeSetOperation false f (optimizeList cs options) options) ∧
    optimize (.unionNode {} [.stringNode {}, .nullNode {}]) {} = T_STRING ∧
    optimize (.unionNode {} [.stringNode {}, .anyNode {}]) {} = T_ANY ∧
    optimize (.unionNode {} [.literalNode {} "a", .literalNode {} "b"]) {} = T_STRING := by
  refine ⟨fun isUnion f ps options => ⟨?_, ?_, ?_⟩, fun f cs options => ⟨?_, ?_⟩, rfl, rfl, rfl⟩
  · intro h
    simp [optimizeSetOperation, h]
  · intro h1 h2
    simp [optimizeSetOperation, h1, h2]
  · intro h1 h2 h3
    simp [optimizeSetOperation, h1, h2, h3]
  · rw [optimize.eq_def]
  · rw [optimize.eq_def]

/-- C5 witness: the rule cascade applied at a concrete input. -/
theorem c5_union_rule_order_witness :
    optimizeSetOperation true {} [.stringNode {}, .anyNode {}] {} = T_ANY :=
  (c5_union_rule_order.1 true {} [.stringNode {}, .anyNode {}] {}).1 (by decide)

/-- `uniqByKeyAux` never returns an element whose key was already seen,
and its output has pairwise-distinct keys. -/
theorem uniqByKeyAux_pairwise (key : AST → String) :
    ∀ (ps : List AST) (seen : List String),
      (∀ a ∈ uniqByKeyAux ps key seen, key a ∉ seen) ∧
        List.Pairwise (fun a b => key a ≠ key b) (uniqByKeyAux ps key seen)
  | [], seen => by simp [uniqByKeyAux]
  | p :: rest, seen => by
      by_cases hc : key p ∈ seen
      · have ih := uniqByKeyAux_pairwise key rest seen
        simpa [uniqByKeyAux, List.contains, hc] using ih
      · have ih := uniqByKeyAux_pairwise key rest (seen ++ [key p])
        have hres : uniqByKeyAux (p :: rest) key seen =
            p :: uniqByKeyAux rest key (seen ++ [key p]) := by
          simp [uniqByKeyAux, List.contains, hc]
        rw [hres]
        constructor
        · intro a ha
          rcases List.mem_cons.mp ha with rfl | ha
          · exact hc
          · have h2 := ih.1 a ha
            intro hmem
            exact h2 (List.mem_append.mpr (Or.inl hmem))
        · refine List.Pairwise.cons ?_ ih.2
          intro b hb hkey
          exact ih.1 b hb (List.mem_append.mpr (Or.inr (by simp [hkey])))

/-- C6: during set-operation optimization the parameters are
deduplicated by rendered text — when some parameter is named and every
parameter's name-stripped rendering equals the first's, exactly the named
parameters survive (then deduplicated by full rendered text); the
`uniqBy` step leaves no two parameters with the same rendered text; and
on the concrete examples, the named duplicate survives alone, and two
structurally different nodes with identical rendered text collapse to one
union parameter. -/
theorem c6_rendered_text_dedup :
    (∀ (ps1 : List AST) (options : Options),
        ps1.all (fun p =>
            generateType (omitStandaloneName p) options
              == generateType (omitStandaloneName (ps1.headD T_ANY)) options) = true →
        ps1.any (fun p => p.standaloneName.isSome) = true →
        dedupSetParams ps1 options =
          uniqByKey (ps1.filter (fun p => p.standaloneName.isSome))
            (fun p => generateType p options)) ∧
    (∀ (ps : List AST) (key : AST → String),
        List.Pairwise (fun a b => key a ≠ key b) (uniqByKey ps key)) ∧
    optimize (.unionNode {} [.booleanNode { standaloneName := some "Foo" }, .booleanNode {}])
        {} =
      .unionNode {} [.booleanNode { standaloneName := some "Foo" }] ∧
    optimize (.unionNode {} [.intersectionNode {} [.booleanNode {}], .booleanNode {}]) {} =
      .unionNode {} [.intersectionNode {} [.booleanNode {}]] := by
  refine ⟨fun ps1 options h1 h2 => ?_, fun ps key => (uniqByKeyAux_pairwise key ps []).2,
    rfl, rfl⟩
  simp only [List.all_eq_true, beq_iff_eq, List.headD_eq_head?_getD] at h1
  simp [dedupSetParams, h2]
  rw [if_pos h1]

/-- C6 witness: the named-duplicate rule applied at a concrete input. -/
theorem c6_rendered_text_dedup_witness :
    dedupSetParams [AST.booleanNode { standaloneName := some "Foo" }, AST.booleanNode {}] {} =
      uniqByKey
        (([AST.booleanNode { standaloneName := some "Foo" },
            AST.booleanNode {}]).filter (fun p => p.standaloneName.isSome))
        (fun p => generateType p {}) :=
  c6_rendered_text_dedup.1 [AST.booleanNode { standaloneName := some "Foo" }, AST.booleanNode {}]
    {} (by decide) (by decide)

/-- The root node of claim C7's example: a named `String`, so the
named-type walk emits one declaration and the other walks are empty. -/
def c7Root : AST := .stringNode { standaloneName := some "Root" }

/-- The options of claim C7's example (a nonempty banner). -/
def c7Options : Options := { bannerComment := "BANNER" }

/-- C7 counterexample: the banner follows the runtime-support text
immediately — `generate` concatenates `prefix + types` with NO blank-line
separator between the prefix section and the banner section, so the
output is not the claimed fully-blank-line-separated layout. -/
theorem c7_counterexample :
    generate c7Root c7Options =
        runtimeSupportText ++ "BANNER\n\nexport type Root = string\n" ∧
      generate c7Root c7Options ≠
        runtimeSupportText ++ "\n\n" ++ "BANNER\n\nexport type Root = string\n" := by
  have h1 : generate c7Root c7Options =
      runtimeSupportText ++ "BANNER\n\nexport type Root = string\n" := rfl
  refine ⟨h1, ?_⟩
  rw [h1, String.append_assoc]
  intro h
  have h2 : ("BANNER\n\nexport type Root = string\n" : String).data =
      ("\n\n" ++ "BANNER\n\nexport type Root = string\n" : String).data := by
    have h3 := congrArg String.data h
    simp only [String.data_append] at h3
    exact List.append_cancel_left h3
  exact absurd h2 (by decide)

/-- C7 amended: `generate` returns the runtime-support prefix directly
followed (no separator) by the banner comment, the named-type
declarations, the named-interface declarations and the enum declarations
in that order, with the empty sections omitted and the remaining sections
separated by blank lines, and a trailing newline guaranteed. -/
theorem c7_amended (ast : AST) (options : Options) :
    generate ast options =
        runtimeSupportText
          ++ (String.intercalate "\n\n"
                (([options.bannerComment,
                    declareNamedTypes ast options ast.standaloneName,
                    declareNamedInterfaces ast options ast.standaloneName,
                    declareEnums ast options]).filter (fun s => s != ""))
              ++ "\n") ∧
      ∃ s, generate ast options = s ++ "\n" := by
  refine ⟨rfl, ⟨runtimeSupportText
    ++ String.intercalate "\n\n"
        (([options.bannerComment,
            declareNamedTypes ast options ast.standaloneName,
            declareNamedInterfaces ast options ast.standaloneName,
            declareEnums ast options]).filter (fun s => s != "")), ?_⟩⟩
  rw [String.append_assoc]
  rfl

/-- The node of claim C8's example: a tuple whose rendering depends on
the `unknownAny` option (`[...(unknown)[]]` versus `[...(any)[]]`). -/
def c8Node : AST := .tupleNode {} [] 1 0 none

/-- C8 counterexample: the memo cache is keyed by the node alone and kept
across calls, so rendering the same node again with different options
serves the stale first result instead of what the unmemoized renderer
would produce. -/
theorem c8_counterexample :
    (generateTypeMemoized c8Node { unknownAny := true } []).1 = "[...(unknown)[]]" ∧
      (generateTypeMemoized c8Node { unknownAny := false }
          (generateTypeMemoized c8Node { unknownAny := true } []).2).1 = "[...(unknown)[]]" ∧
      generateTypeUnmemoized c8Node { unknownAny := false } = "[...(any)[]]" ∧
      (generateTypeMemoized c8Node { unknownAny := false }
            (generateTypeMemoized c8Node { unknownAny := true } []).2).1 ≠
        generateTypeUnmemoized c8Node { unknownAny := false } :=
  ⟨rfl, rfl, rfl, by decide⟩

/-- C8 amended: memoization is transparent exactly while the node is
absent from the cache — a miss returns the unmemoized text and records
it; since the cache is module-level and keyed by the node alone, any later
hit (other options, later `generate` run, mutated-but-identical node)
replays the recorded first text. -/
theorem c8_amended (ast : AST) (options : Options) (cache : MemoCache)
    (h : memoLookup cache ast = none) :
    generateTypeMemoized ast options cache =
      (generateTypeUnmemoized ast options,
        (ast, generateTypeUnmemoized ast options) :: cache) := by
  simp [generateTypeMemoized, h]

/-- C8 amended, witness: the first rendering of the example node is the
unmemoized text. -/
theorem c8_amended_witness :
    generateTypeMemoized c8Node { unknownAny := true } [] =
      ("[...(unknown)[]]", [(c8Node, "[...(unknown)[]]")]) :=
  c8_amended c8Node { unknownAny := true } [] rfl

/-- The cyclic graph of claim C2: an `Array` node (id 10) whose element
is the node itself, alongside the shared constant nodes. -/
def cyclicStore : Store := constNodes ++ [(10, .arrayNode {} 10)]

/-- `render_type` terminates on a node of a graph: some fuel suffices
for the (memoized, fresh-cache) rendering to return. -/
def GenTypeTerminates (options : Options) (st : Store) (n : Nat) : Prop :=
  ∃ fuel r, genTypeG fuel options st n [] = some r

/-- `optimize` terminates on a node of a graph: some fuel suffices for
the pass (fresh visited set) to return. -/
def OptimizeGTerminates (options : Options) (st : Store) (n : Nat) : Prop :=
  ∃ fuel r, optimizeG fuel options st n [] = some r

/-- On the self-referential array node the renderer recurses on the very
same node with the very same (still unwritten) cache, for any fuel: the
memo cache is only written after a call returns, so it never breaks the
cycle. -/
theorem genTypeG_cyclic_none (options : Options) :
    ∀ fuel, genTypeG fuel options cyclicStore 10 [] = none := by
  intro fuel
  induction fuel with
  | zero => rfl
  | succ fuel ih =>
      rw [genTypeG]
      have hlook : lookupStore cyclicStore 10 = some (.arrayNode {} 10) := rfl
      simp [hlook, gcacheLookup, gHasStandaloneName, GNode.standaloneName, GNode.fields, ih]

/-- C2 counterexample: `render_type` does NOT terminate on the cyclic
tree whose array element is the node itself — the claim's visited-set
premise fails for the renderer, whose lodash memo cache is written only
after a call returns and therefore never interrupts in-flight recursion
on a cycle. -/
theorem c2_counterexample : ¬ GenTypeTerminates {} cyclicStore 10 := by
  intro h
  obtain ⟨fuel, r, hr⟩ := h
  rw [genTypeG_cyclic_none {} fuel] at hr
  cases hr

/-- C2 amended: `optimize`, which does thread an identity-keyed visited
set, terminates on the cyclic graph (returning the node itself, with the
store unchanged); `render_type` has no visited set and does not
terminate on the same cyclic graph. -/
theorem c2_amended :
    OptimizeGTerminates {} cyclicStore 10 ∧ ¬ GenTypeTerminates {} cyclicStore 10 := by
  constructor
  · exact ⟨2, (10, cyclicStore, [10]), rfl⟩
  · intro h
    obtain ⟨fuel, r, hr⟩ := h
    rw [genTypeG_cyclic_none {} fuel] at hr
    cases hr

/-- The store of claim C9's concrete illustration: an `Interface` node
(id 10) with a boolean member node (id 11). -/
def c9InterfaceStore : Store :=
  constNodes ++ [(10, .interfaceNode {} [("a", 11, true, false, false)] []), (11, .booleanNode {})]

/-- C9: for every node already present in the visited set, `optimize`
returns the node itself with the store and the visited set unchanged —
for ANY store, visited set, options and (positive) fuel, so in particular
for the mid-recursion states in which the re-entry happens. Consequently
the `INTERFACE` branch's trailing self-recursive `optimize` call, made
after the node was added to the visited set, is a no-op, as the second
conjunct illustrates on a concrete interface graph: the pass returns the
interface node itself and leaves the store unchanged. -/
theorem c9_visited_guard :
    (∀ (fuel : Nat) (options : Options) (st : Store) (vis : Visited) (n : Nat),
        vis.contains n = true → optimizeG (fuel + 1) options st n vis = some (n, st, vis)) ∧
      optimizeG 3 {} c9InterfaceStore 10 [] = some (10, c9InterfaceStore, [11, 10]) := by
  constructor
  · intro fuel options st vis n h
    have h2 : n ∈ vis := by simpa using h
    rw [optimizeG]
    simp [h2]
  · rfl

/-- C9 witness: the guard applied at a concrete visited set and store. -/
theorem c9_visited_guard_witness :
    optimizeG 1 {} cyclicStore 10 [10] = some (10, cyclicStore, [10]) :=
  c9_visited_guard.1 0 {} cyclicStore [10] 10 (by decide)

/-- The tree of claim C1's counterexample: a union of a plain `String`
and a `Reference` whose stored name renders as the same text `string`. -/
def c1Tree : AST := .unionNode {} [.stringNode {}, .referenceNode {} "string"]

/-- C1 counterexample: `optimize` is NOT idempotent. On `c1Tree` the
first pass deduplicates the two parameters by rendered text, leaving
`Union[String]` (the all-string-like collapse was blocked by the
`REFERENCE` parameter); the second pass then sees a union whose every
parameter is string-like and collapses it to `String` — a different
tree. -/
theorem c1_counterexample : optimize (optimize c1Tree {}) {} ≠ optimize c1Tree {} :=
  fun h => AST.noConfusion h

/-- Per-constructor unfolding of `optimize` (catch-all cases). -/
theorem optimize_fixed (t : AST) (options : Options) (h : optimize t options = t) :
    optimize (optimize t options) options = optimize t options := by
  rw [h, h]

theorem optimize_stringNode (f : Fields) (options : Options) :
    optimize (.stringNode f) options = .stringNode f := by
  rw [optimize.eq_def]

theorem optimize_literalNode (f : Fields) (v : String) (options : Options) :
    optimize (.literalNode f v) options =
      (if truthy f.comment then AST.stringNode { comment := f.comment } else T_STRING) := by
  rw [optimize.eq_def]

theorem optimize_arrayNode (f : Fields) (p : AST) (options : Options) :
    optimize (.arrayNode f p) options =
      .arrayNode f (flattenNamedString (optimize p options)) := by
  rw [optimize.eq_def]

theorem optimize_tupleNode (f : Fields) (ps : List AST) (mi ma : Int) (sp : Option AST)
    (options : Options) :
    optimize (.tupleNode f ps mi ma sp) options =
      .tupleNode f (optimizeList ps options) mi ma sp := by
  rw [optimize.eq_def]

theorem optimize_interfaceNode (f : Fields) (ms : List InterfaceMember) (sts : List AST)
    (options : Options) :
    optimize (.interfaceNode f ms sts) options =
      .interfaceNode f (optimizeMembers ms options) sts := by
  rw [optimize.eq_def]

theorem optimizeList_cons (t : AST) (ts : List AST) (options : Options) :
    optimizeList (t :: ts) options = optimize t options :: optimizeList ts options := by
  rw [optimizeList.eq_def]

theorem optimizeMembers_cons (k : String) (a : AST) (r pp ud : Bool)
    (ms : List InterfaceMember) (options : Options) :
    optimizeMembers ((k, a, r, pp, ud) :: ms) options =
      (k, flattenNamedString (optimize a options), r, pp, ud) :: optimizeMembers ms options := by
  rw [optimizeMembers.eq_def]

theorem unionFree_arrayNode (f : Fields) (p : AST) :
    unionFree (.arrayNode f p) = unionFree p := by
  rw [unionFree.eq_def]

theorem unionFree_tupleNode (f : Fields) (ps : List AST) (mi ma : Int) (sp : Option AST) :
    unionFree (.tupleNode f ps mi ma sp) =
      (unionFreeList ps
        && (match sp with
            | some s => unionFree s
            | none => true)) := by
  rw [unionFree.eq_def]

theorem unionFree_interfaceNode (f : Fields) (ms : List InterfaceMember) (sts : List AST) :
    unionFree (.interfaceNode f ms sts) = (unionFreeMembers ms && unionFreeList sts) := by
  rw [unionFree.eq_def]

theorem unionFree_unionNode (f : Fields) (ps : List AST) :
    unionFree (.unionNode f ps) = false := by
  rw [unionFree.eq_def]

theorem unionFree_intersectionNode (f : Fields) (ps : List AST) :
    unionFree (.intersectionNode f ps) = false := by
  rw [unionFree.eq_def]

theorem unionFreeList_cons (t : AST) (ts : List AST) :
    unionFreeList (t :: ts) = (unionFree t && unionFreeList ts) := by
  rw [unionFreeList.eq_def]

theorem unionFreeMembers_cons (k : String) (a : AST) (r pp ud : Bool)
    (ms : List InterfaceMember) :
    unionFreeMembers ((k, a, r, pp, ud) :: ms) = (unionFree a && unionFreeMembers ms) := by
  rw [unionFreeMembers.eq_def]

/-- The named-`String` flattening is stable under a further
optimize-then-flatten round, whenever its input is an `optimize` fixed
point: the flattened output either is an anonymous `String` node (an
`optimize` fixed point that the flattening leaves alone) or the input
itself. -/
theorem flattenNamedString_stable (x : AST) (options : Options)
    (hx : optimize x options = x) :
    flattenNamedString (optimize (flattenNamedString x) options) = flattenNamedString x := by
  by_cases hcond : (truthy x.standaloneName && x.typeName == "STRING") = true
  · by_cases hc : truthy x.comment = true
    · have hfx : flattenNamedString x = .stringNode { comment := x.comment } := by
        rw [flattenNamedString, if_pos hcond, if_pos hc]
      rw [hfx, optimize_stringNode]
      simp [flattenNamedString, truthy, AST.standaloneName, AST.fields]
    · have hfx : flattenNamedString x = T_STRING := by
        rw [flattenNamedString, if_pos hcond, if_neg hc]
      rw [hfx]
      simp [T_STRING, optimize_stringNode, flattenNamedString, truthy, AST.standaloneName,
        AST.fields]
  · have hfx : flattenNamedString x = x := by rw [flattenNamedString, if_neg hcond]
    rw [hfx, hx, hfx]

mutual

/-- C1 amended: `optimize` is idempotent on every tree that contains no
`Union` or `Intersection` node — `optimize(optimize(t))` is structurally
equal to `optimize(t)` for any such tree (on unions the set-operation
rules can strip parameters in the first pass and thereby enable a further
collapse in the second pass, as the counterexample shows). -/
theorem c1_amended : ∀ (t : AST) (options : Options), unionFree t = true →
    optimize (optimize t options) options = optimize t options
  | .anyNode _, options, _ => optimize_fixed _ options (by rw [optimize.eq_def])
  | .unknownNode _, options, _ => optimize_fixed _ options (by rw [optimize.eq_def])
  | .neverNode _, options, _ => optimize_fixed _ options (by rw [optimize.eq_def])
  | .nullNode _, options, _ => optimize_fixed _ options (by rw [optimize.eq_def])
  | .booleanNode _, options, _ => optimize_fixed _ options (by rw [optimize.eq_def])
  | .numberNode _, options, _ => optimize_fixed _ options (by rw [optimize.eq_def])
  | .objectNode _, options, _ => optimize_fixed _ options (by rw [optimize.eq_def])
  | .stringNode _, options, _ => optimize_fixed _ options (by rw [optimize.eq_def])
  | .referenceNode _ _, options, _ => optimize_fixed _ options (by rw [optimize.eq_def])
  | .customNode _ _, options, _ => optimize_fixed _ options (by rw [optimize.eq_def])
  | .enumNode _ _, options, _ => optimize_fixed _ options (by rw [optimize.eq_def])
  | .literalNode f v, options, _ => by
      rw [optimize_literalNode]
      by_cases hc : truthy f.comment = true
      · rw [if_pos hc, optimize_stringNode]
      · rw [if_neg hc]
        simp [T_STRING, optimize_stringNode]
  | .arrayNode f p, options, h => by
      have hp : unionFree p = true := by rw [unionFree_arrayNode] at h; exact h
      rw [optimize_arrayNode, optimize_arrayNode,
        flattenNamedString_stable (optimize p options) options (c1_amended p options hp)]
  | .tupleNode f ps mi ma sp, options, h => by
      have hps : unionFreeList ps = true := by
        rw [unionFree_tupleNode] at h
        exact (Bool.and_eq_true_iff.mp h).1
      rw [optimize_tupleNode, optimize_tupleNode, optimizeList_idem ps options hps]
  | .interfaceNode f ms sts, options, h => by
      have hms : unionFreeMembers ms = true := by
        rw [unionFree_interfaceNode] at h
        exact (Bool.and_eq_true_iff.mp h).1
      rw [optimize_interfaceNode, optimize_interfaceNode,
        optimizeMembers_idem ms options hms]
  | .unionNode f ps, _, h => by rw [unionFree_unionNode] at h; exact Bool.noConfusion h
  | .intersectionNode f ps, _, h => by
      rw [unionFree_intersectionNode] at h; exact Bool.noConfusion h

/-- Idempotence of the pointwise parameter optimization, on
union/intersection-free lists. -/
theorem optimizeList_idem : ∀ (ts : List AST) (options : Options), unionFreeList ts = true →
    optimizeList (optimizeList ts options) options = optimizeList ts options
  | [], options, _ => by
      have h0 : optimizeList ([] : List AST) options = [] := by rw [optimizeList.eq_def]
      rw [h0, h0]
  | t :: ts, options, h => by
      rw [unionFreeList_cons] at h
      obtain ⟨h1, h2⟩ := Bool.and_eq_true_iff.mp h
      rw [optimizeList_cons, optimizeList_cons, c1_amended t options h1,
        optimizeList_idem ts options h2]

/-- Idempotence of the interface-member optimization (optimize plus
named-`String` flattening), on union/intersection-free member lists. -/
theorem optimizeMembers_idem :
    ∀ (ms : List InterfaceMember) (options : Options), unionFreeMembers ms = true →
      optimizeMembers (optimizeMembers ms options) options = optimizeMembers ms options
  | [], options, _ => by
      have h0 : optimizeMembers ([] : List InterfaceMember) options = [] := by
        rw [optimizeMembers.eq_def]
      rw [h0, h0]
  | (k, a, r, pp, ud) :: rest, options, h => by
      rw [unionFreeMembers_cons] at h
      obtain ⟨h1, h2⟩ := Bool.and_eq_true_iff.mp h
      rw [optimizeMembers_cons, optimizeMembers_cons,
        flattenNamedString_stable (optimize a options) options (c1_amended a options h1),
        optimizeMembers_idem rest options h2]

end

/-- C1 amended, witness at a concrete union-free tree. -/
theorem c1_amended_witness :
    optimize (optimize (.arrayNode {} (.literalNode {} "x")) {}) {} =
      optimize (.arrayNode {} (.literalNode {} "x")) {} :=
  c1_amended (.arrayNode {} (.literalNode {} "x")) {} (by decide)
